import Mathlib

/-!
# Reaction-diffusion sketch (`sketch.js`): a shallow embedding

The sketch is one closure over a handful of mutable variables, a `controls`
object, the main p5 canvas `p`, an off-screen WEBGL buffer `gfx` and a 2D
buffer `textBuffer`.  Each function of the sketch becomes a function
`State → State`; the p5 calls it makes are small state transformers on the
canvas they address.

Numbers are JavaScript doubles in the source; here they are rationals (exact
arithmetic), colours are integers in `0..255`.

What is not in `sketch.js` is a field of `External`: the two fragment shaders
of `shader.js`, the glyph rasteriser behind `text()`, and the seed image.
-/

namespace Sketch

/-! ## Pixels and frames -/

/-- An RGBA colour. -/
structure Color where
  r : ℤ
  g : ℤ
  b : ℤ
  a : ℤ
deriving DecidableEq, Repr

/-- The colour p5 makes of one grey argument, as in `fill(0)` or `stroke(255)`:
the value is clamped to `0..255` and the colour is opaque. -/
def gray (v : ℤ) : Color :=
  let c := max 0 (min 255 v)
  ⟨c, c, c, 255⟩

/-- A frame: one colour for every pixel `(i, j)`, column then row.  The canvas
is the part with `0 ≤ i < WIDTH`, `0 ≤ j < HEIGHT`; the model does not clip. -/
abbrev Frame := ℤ → ℤ → Color

/-- Set the pixels selected by `cover` to colour `c`, keep the others. -/
def paint (cover : ℤ → ℤ → Bool) (c : Color) (F : Frame) : Frame :=
  fun i j => if cover i j then c else F i j

/-! ## Drawing state of a p5 renderer -/

/-- The part of a renderer's drawing state the sketch touches: fill and stroke
colour (`none` after `noFill()` / `noStroke()`), stroke weight, and the
accumulated `translate`. -/
structure Style where
  fill : Option Color
  stroke : Option Color
  strokeWeight : ℚ
  tx : ℚ
  ty : ℚ
deriving DecidableEq

/-- Drawing state of a fresh renderer: white fill, black stroke of weight 1,
no translation. -/
def Style.initial : Style := ⟨some (gray 255), some (gray 0), 1, 0, 0⟩

/-- The main canvas `p`: a WEBGL canvas of `w × h` pixels with its drawing state
and the stack `push()` / `pop()` work on.  Its origin is the canvas centre;
`rectMode(CENTER)` and `imageMode(CENTER)` are set once in `setup`.  One colour
is kept per pixel and a shape covers a pixel when it covers the pixel centre:
the raster of a drawing buffer with one sample per pixel.  `SampledCanvas`
further down keeps several samples per pixel. -/
structure Canvas where
  w : ℚ
  h : ℚ
  pixels : Frame
  style : Style
  saved : List Style

namespace Canvas

/-- Coordinates, in the WEBGL system (origin at the canvas centre), of the
centre of pixel `(i, j)`. -/
def centreX (c : Canvas) (i : ℤ) : ℚ := (i : ℚ) + 1 / 2 - c.w / 2

/-- See `centreX`. -/
def centreY (c : Canvas) (j : ℤ) : ℚ := (j : ℚ) + 1 / 2 - c.h / 2

/-- Model of `p.push()`. -/
def push (c : Canvas) : Canvas := { c with saved := c.style :: c.saved }

/-- Model of `p.pop()`. -/
def pop (c : Canvas) : Canvas :=
  match c.saved with
  | [] => c
  | st :: rest => { c with style := st, saved := rest }

/-- Model of `p.translate(x, y)`. -/
def translate (x y : ℚ) (c : Canvas) : Canvas :=
  { c with style := { c.style with tx := c.style.tx + x, ty := c.style.ty + y } }

/-- Model of `p.fill(v)`. -/
def fill (v : ℤ) (c : Canvas) : Canvas :=
  { c with style := { c.style with fill := some (gray v) } }

/-- Model of `p.noFill()`. -/
def noFill (c : Canvas) : Canvas :=
  { c with style := { c.style with fill := none } }

/-- Model of `p.stroke(v)`. -/
def stroke (v : ℤ) (c : Canvas) : Canvas :=
  { c with style := { c.style with stroke := some (gray v) } }

/-- Model of `p.noStroke()`. -/
def noStroke (c : Canvas) : Canvas :=
  { c with style := { c.style with stroke := none } }

/-- Model of `p.strokeWeight(w)`. -/
def setStrokeWeight (w : ℚ) (c : Canvas) : Canvas :=
  { c with style := { c.style with strokeWeight := w } }

/-- Model of `p.background(v)`: every pixel gets the colour. -/
def background (v : ℤ) (c : Canvas) : Canvas :=
  { c with pixels := fun _ _ => gray v }

/-- Pixels inside the disc of diameter `d` centred at `(x, y)` (coordinates
before the current translation). -/
def discCover (c : Canvas) (x y d : ℚ) : ℤ → ℤ → Bool :=
  fun i j =>
    decide ((c.centreX i - (x + c.style.tx)) ^ 2 + (c.centreY j - (y + c.style.ty)) ^ 2
      ≤ (d / 2) ^ 2)

/-- Pixels on the outline of that disc, drawn with the current stroke weight:
those whose centre lies between the circles of diameter `d - sw` and `d + sw`. -/
def ringCover (c : Canvas) (x y d : ℚ) : ℤ → ℤ → Bool :=
  fun i j =>
    let q := (c.centreX i - (x + c.style.tx)) ^ 2 + (c.centreY j - (y + c.style.ty)) ^ 2
    decide (q ≤ ((d + c.style.strokeWeight) / 2) ^ 2) &&
      decide (d ≤ c.style.strokeWeight ∨ ((d - c.style.strokeWeight) / 2) ^ 2 ≤ q)

/-- Model of `p.circle(x, y, d)`: the disc in the fill colour, then its outline
in the stroke colour, each only when set. -/
def circle (x y d : ℚ) (c : Canvas) : Canvas :=
  let filled : Frame :=
    match c.style.fill with
    | some col => paint (c.discCover x y d) col c.pixels
    | none => c.pixels
  let stroked : Frame :=
    match c.style.stroke with
    | some col => paint (c.ringCover x y d) col filled
    | none => filled
  { c with pixels := stroked }

/-- Signed distance (maximum norm) from the centre of pixel `(i, j)` to the
boundary of the rectangle of size `rw × rh` centred at `(x, y)`: negative
inside, positive outside. -/
def rectDist (c : Canvas) (x y rw rh : ℚ) (i j : ℤ) : ℚ :=
  max (|c.centreX i - (x + c.style.tx)| - rw / 2) (|c.centreY j - (y + c.style.ty)| - rh / 2)

/-- Pixels inside the rectangle (`rectMode(CENTER)`). -/
def rectCover (c : Canvas) (x y rw rh : ℚ) : ℤ → ℤ → Bool :=
  fun i j => decide (c.rectDist x y rw rh i j ≤ 0)

/-- Pixels on the outline of the rectangle, drawn with the current stroke
weight: those within half the weight of the boundary, on either side. -/
def outlineCover (c : Canvas) (x y rw rh : ℚ) : ℤ → ℤ → Bool :=
  fun i j => decide (|c.rectDist x y rw rh i j| ≤ c.style.strokeWeight / 2)

/-- Model of `p.rect(x, y, w, h)` under `rectMode(CENTER)`. -/
def rect (x y rw rh : ℚ) (c : Canvas) : Canvas :=
  let filled : Frame :=
    match c.style.fill with
    | some col => paint (c.rectCover x y rw rh) col c.pixels
    | none => c.pixels
  let stroked : Frame :=
    match c.style.stroke with
    | some col => paint (c.outlineCover x y rw rh) col filled
    | none => filled
  { c with pixels := stroked }

/-- Model of `p.image(src, x, y)` under `imageMode(CENTER)` for an opaque source
of the canvas size: the source, moved by `(x, y)` and the current translation
(whole pixels), replaces the pixels. -/
def image (src : Frame) (x y : ℚ) (c : Canvas) : Canvas :=
  { c with pixels := fun i j => src (i - ⌊x + c.style.tx⌋) (j - ⌊y + c.style.ty⌋) }

/-- Model of `p.get()`: a copy of the pixels. -/
def get (c : Canvas) : Frame := c.pixels

end Canvas

/-! ## Shaders and the off-screen buffer `gfx` -/

/-- What a `tex0` uniform can be bound to: a copy of pixels (the `p5.Image`
returned by `p.get()`) or the buffer `gfx` itself, read when the shader runs. -/
inductive Texture where
  | image (f : Frame)
  | graphics

/-- Uniforms of the shader object `BlurPass`. -/
structure BlurUniforms where
  u_blurSpread : ℚ
  texelSize : ℚ × ℚ
  tex0 : Texture
  direction : ℚ × ℚ

/-- Uniforms of the shader object `UnsharpPass`. -/
structure UnsharpUniforms where
  u_unsharpRadius : ℚ
  u_unsharpAmount : ℚ
  texelSize : ℚ × ℚ
  tex0 : Texture

/-- The two shader objects of the sketch. -/
inductive ShaderId where
  | BlurPass
  | UnsharpPass
deriving DecidableEq

/-- The buffer `gfx`: its pixels and the shader selected by `gfx.shader(..)`. -/
structure Graphics where
  pixels : Frame
  shader : Option ShaderId

/-! ## The 2D buffer `textBuffer` -/

/-- Alignment constants of p5 used with `textAlign`. -/
inductive Align where
  | LEFT
  | CENTER
  | RIGHT
  | TOP
  | BOTTOM
  | BASELINE
deriving DecidableEq

/-- Text-drawing state of a 2D renderer. -/
structure TextStyle where
  font : String
  size : ℚ
  leading : ℚ
  alignH : Align
  alignV : Align
  strokeWeight : ℚ
  stroke : Option Color
  fill : Option Color
deriving DecidableEq

/-- One `text(str, x, y)` call with the drawing state it was made in. -/
structure TextCall where
  str : String
  x : ℚ
  y : ℚ
  style : TextStyle
deriving DecidableEq

/-- The buffer `textBuffer`: its drawing state, the `push()` stack, and the text
calls made on it since the last `clear()`, oldest first.  The pixels of the
buffer are what the glyph rasteriser makes of those calls on a transparent
ground. -/
structure TextBuffer where
  style : TextStyle
  saved : List TextStyle
  calls : List TextCall

namespace TextBuffer

/-- Drawing state of a fresh 2D renderer. -/
def initialStyle : TextStyle :=
  ⟨"sans-serif", 12, 15, Align.LEFT, Align.BASELINE, 1, some (gray 0), some (gray 255)⟩

/-- Model of `textBuffer.clear()`. -/
def clear (t : TextBuffer) : TextBuffer := { t with calls := [] }

/-- Model of `textBuffer.push()`. -/
def push (t : TextBuffer) : TextBuffer := { t with saved := t.style :: t.saved }

/-- Model of `textBuffer.pop()`. -/
def pop (t : TextBuffer) : TextBuffer :=
  match t.saved with
  | [] => t
  | st :: rest => { t with style := st, saved := rest }

/-- Model of `textBuffer.textFont(f)`. -/
def textFont (f : String) (t : TextBuffer) : TextBuffer :=
  { t with style := { t.style with font := f } }

/-- Model of `textBuffer.textSize(s)`; p5 resets the leading to `1.25 * s`. -/
def textSize (sz : ℚ) (t : TextBuffer) : TextBuffer :=
  { t with style := { t.style with size := sz, leading := sz * (5 / 4) } }

/-- Model of `textBuffer.textAlign(h, v)`. -/
def textAlign (h v : Align) (t : TextBuffer) : TextBuffer :=
  { t with style := { t.style with alignH := h, alignV := v } }

/-- Model of `textBuffer.textLeading(l)`. -/
def textLeading (l : ℚ) (t : TextBuffer) : TextBuffer :=
  { t with style := { t.style with leading := l } }

/-- Model of `textBuffer.strokeWeight(w)`. -/
def setStrokeWeight (w : ℚ) (t : TextBuffer) : TextBuffer :=
  { t with style := { t.style with strokeWeight := w } }

/-- Model of `textBuffer.stroke(v)`. -/
def stroke (v : ℤ) (t : TextBuffer) : TextBuffer :=
  { t with style := { t.style with stroke := some (gray v) } }

/-- Model of `textBuffer.fill(v)`. -/
def fill (v : ℤ) (t : TextBuffer) : TextBuffer :=
  { t with style := { t.style with fill := some (gray v) } }

/-- Model of `textBuffer.text(str, x, y)`. -/
def text (str : String) (x y : ℚ) (t : TextBuffer) : TextBuffer :=
  { t with calls := t.calls ++ [⟨str, x, y, t.style⟩] }

end TextBuffer

/-! ## What lies outside `sketch.js` -/

/-- The collaborators of the sketch that are not in `sketch.js`. -/
structure External where
  /-- Fragment shader `BLUR` of `shader.js` run over the whole buffer: spread, texel
  size, direction, input texture. -/
  BLUR : ℚ → ℚ × ℚ → ℚ × ℚ → Frame → Frame
  /-- Fragment shader `UNSHARP` of `shader.js` run over the whole buffer: radius,
  amount, texel size, input texture. -/
  UNSHARP : ℚ → ℚ → ℚ × ℚ → Frame → Frame
  /-- The glyph rasteriser and the compositing of `textBuffer` over a frame: the
  text calls held by the buffer, then the frame underneath. -/
  textOver : List TextCall → Frame → Frame
  /-- The seed image `NoiseMono_2.png` drawn over black at a given canvas size. -/
  seed : ℚ → ℚ → Frame

/-! ## The sketch's variables -/

/-- The data fields of the object `controls` (its function fields are the
definitions `toggleCursorColor`, `toggleTextColors`, `toggleFont` and
`submitText` below). -/
structure Controls where
  resolution : ℚ
  simulationStatus : String
  cursorRadius : ℚ
  currentCursorColor : String
  textInput : String
  textSize : ℚ
  textWeight : ℚ
  outlineWeight : ℚ
  currentTextFillColor : String
  currentTextStrokeColor : String
  fontName : String
  randomPointCount : ℕ
  randomPointSize : ℚ
  blurSpread : ℚ
  unsharpRadius : ℚ
  unsharpRadius_GUI : ℚ
  unsharpAmount : ℚ

/-- Everything the sketch reads or writes.  A display controller is `none`
while the variable is still undefined (before `setup`), and otherwise holds
the text its widget shows. -/
structure State where
  /-- Value of `savedResolution`, fixed when the page loads. -/
  savedResolution : ℕ
  CURSOR_COLOR : ℤ
  TEXT_FILL_COLOR : ℤ
  TEXT_STROKE_COLOR : ℤ
  isLooping : Bool
  statusDisplayController : Option String
  cursorColorDisplayController : Option String
  textFillColorDisplayController : Option String
  textStrokeColorDisplayController : Option String
  fontDisplayController : Option String
  controls : Controls
  /-- The main canvas. -/
  cnv : Canvas
  gfx : Graphics
  BlurPass : BlurUniforms
  UnsharpPass : UnsharpUniforms
  textBuffer : TextBuffer
  /-- Browser: `p.mouseIsPressed`, `p.mouseX`, `p.mouseY`. -/
  mouseIsPressed : Bool
  mouseX : ℚ
  mouseY : ℚ
  /-- Browser: whether `document.activeElement.type === "text"`. -/
  activeElementIsText : Bool
  /-- Browser: the numbers `p.random` will draw from, and how many were drawn.
  Entry `(a, b)` stands for the fraction `(a mod (b + 1)) / (b + 1)` of `[0, 1)`. -/
  randomStream : ℕ → ℕ × ℕ
  randomCalls : ℕ
  /-- Browser: the item `rd-resolution` of `sessionStorage`. -/
  storedResolution : Option ℕ
  /-- Frames handed to `p.saveCanvas`, newest first. -/
  savedCanvases : List Frame
  /-- Bookkeeping: how often `ReactionDiffusion` has run. -/
  pipelineRuns : ℕ
  /-- Bookkeeping: how often `statusDisplayController.updateDisplay()` has run. -/
  statusDisplayUpdates : ℕ

/-- Font stack `FONT_MINCHO`. -/
def FONT_MINCHO : String := "'Hiragino Mincho ProN', 'MS PMincho', serif"

/-- Font stack `FONT_GOTHIC`. -/
def FONT_GOTHIC : String := "'Hiragino Kaku Gothic ProN', 'Meiryo', sans-serif"

/-- The constant `savedResolution`: `parseInt(item) || 300`, for an item that
is absent or holds a natural number. -/
def savedResolution (item : Option ℕ) : ℕ :=
  match item with
  | some n => if n = 0 then 300 else n
  | none => 300

/-- The constant `WIDTH`. -/
def WIDTH (s : State) : ℚ := s.savedResolution

/-- The constant `HEIGHT`. -/
def HEIGHT (s : State) : ℚ := s.savedResolution

/-- The constant `PIXEL_DENSITY`. -/
def PIXEL_DENSITY : ℚ := 1

/-- The constant `TEXEL_SIZE`. -/
def TEXEL_SIZE (s : State) : ℚ × ℚ :=
  (1 / (WIDTH s * PIXEL_DENSITY), 1 / (HEIGHT s * PIXEL_DENSITY))

/-- The constant `MIN_SIDE`. -/
def MIN_SIDE (s : State) : ℚ := min (WIDTH s) (HEIGHT s)

/-- The constant `uiScale`. -/
def uiScale (s : State) : ℚ := WIDTH s / 600

/-- The name shown for a colour value: `(v === 255) ? 'White' : 'Black'`. -/
def colorName (v : ℤ) : String := if v = 255 then "White" else "Black"

/-- The wrapper `performActionAndBlur`: run the action, then take the focus away
from the active element. -/
def performActionAndBlur (action : State → State) (s : State) : State :=
  { action s with activeElementIsText := false }

/-- The function `updateCursorColor`. -/
def updateCursorColor (s : State) : State :=
  let s := { s with CURSOR_COLOR := 255 - s.CURSOR_COLOR }
  let s := { s with controls := { s.controls with currentCursorColor := colorName s.CURSOR_COLOR } }
  { s with cursorColorDisplayController :=
      s.cursorColorDisplayController.map (fun _ => s.controls.currentCursorColor) }

/-- The function `updateTextColors`. -/
def updateTextColors (s : State) : State :=
  let s := { s with TEXT_FILL_COLOR := 255 - s.TEXT_FILL_COLOR }
  let s := { s with TEXT_STROKE_COLOR := 255 - s.TEXT_FILL_COLOR }
  let s := { s with controls :=
    { s.controls with currentTextFillColor := colorName s.TEXT_FILL_COLOR } }
  let s := { s with controls :=
    { s.controls with currentTextStrokeColor := colorName s.TEXT_STROKE_COLOR } }
  let s := { s with textFillColorDisplayController :=
    s.textFillColorDisplayController.map (fun _ => s.controls.currentTextFillColor) }
  { s with textStrokeColorDisplayController :=
      s.textStrokeColorDisplayController.map (fun _ => s.controls.currentTextStrokeColor) }

/-- The function `updateFont`. -/
def updateFont (s : State) : State :=
  let s := { s with controls :=
    { s.controls with fontName := if s.controls.fontName = "Mincho" then "Gothic" else "Mincho" } }
  { s with fontDisplayController := s.fontDisplayController.map (fun _ => s.controls.fontName) }

/-- The call `statusDisplayController.updateDisplay()` guarded by
`if (statusDisplayController)`. -/
def updateStatusDisplay (s : State) : State :=
  match s.statusDisplayController with
  | some _ =>
    { s with statusDisplayController := some s.controls.simulationStatus,
             statusDisplayUpdates := s.statusDisplayUpdates + 1 }
  | none => s

/-- The function `pauseSimulation`. -/
def pauseSimulation (s : State) : State :=
  if s.isLooping then
    let s := { s with isLooping := false }
    let s := { s with controls := { s.controls with simulationStatus := "Paused" } }
    updateStatusDisplay s
  else s

/-- The method `controls.toggleCursorColor`. -/
def toggleCursorColor (s : State) : State := performActionAndBlur updateCursorColor s

/-- The method `controls.toggleTextColors`. -/
def toggleTextColors (s : State) : State := performActionAndBlur updateTextColors s

/-- The method `controls.toggleFont`. -/
def toggleFont (s : State) : State := performActionAndBlur updateFont s

/-- The value of `controls.textInput.replace(/\//g, '\n')`: every `/` becomes a
line feed. -/
def formattedText (textInput : String) : String :=
  ⟨textInput.data.map (fun c => if c = '/' then '\n' else c)⟩

/-- The method `controls.submitText`. -/
def submitText (E : External) (s : State) : State :=
  performActionAndBlur (fun s =>
    let tb := s.textBuffer.clear
    let tb := tb.push
    let currentFont := if s.controls.fontName = "Mincho" then FONT_MINCHO else FONT_GOTHIC
    let tb := tb.textFont currentFont
    let tb := tb.textSize s.controls.textSize
    let tb := tb.textAlign Align.CENTER Align.CENTER
    let tb := tb.textLeading (s.controls.textSize / 2)
    let formatted := formattedText s.controls.textInput
    let tb := tb.setStrokeWeight s.controls.outlineWeight
    let tb := tb.stroke s.TEXT_STROKE_COLOR
    let tb := tb.fill s.TEXT_STROKE_COLOR
    let tb := tb.text formatted (WIDTH s / 2) (HEIGHT s / 2)
    let tb := tb.setStrokeWeight s.controls.textWeight
    let tb := tb.stroke s.TEXT_FILL_COLOR
    let tb := tb.fill s.TEXT_FILL_COLOR
    let tb := tb.text formatted (WIDTH s / 2) (HEIGHT s / 2)
    let tb := tb.pop
    let c := s.cnv.push
    let c := { c with pixels := E.textOver tb.calls c.pixels }
    let c := c.pop
    { s with textBuffer := tb, cnv := c }) s

/-! ## The per-tick transform -/

/-- The pixels a `tex0` binding denotes when a shader runs on `gfx`. -/
def Texture.resolve (t : Texture) (g : Graphics) : Frame :=
  match t with
  | Texture.image f => f
  | Texture.graphics => g.pixels

/-- The call `gfx.quad(-1, 1, 1, 1, 1, -1, -1, -1)`: the selected shader, with
its uniforms as they are now, writes every pixel of `gfx`. -/
def quad (E : External) (s : State) : State :=
  match s.gfx.shader with
  | some ShaderId.BlurPass =>
    let u := s.BlurPass
    { s with gfx := { s.gfx with
        pixels := E.BLUR u.u_blurSpread u.texelSize u.direction (u.tex0.resolve s.gfx) } }
  | some ShaderId.UnsharpPass =>
    let u := s.UnsharpPass
    { s with gfx := { s.gfx with
        pixels := E.UNSHARP u.u_unsharpRadius u.u_unsharpAmount u.texelSize (u.tex0.resolve s.gfx) } }
  | none => s

/-- The function `ReactionDiffusion`. -/
def ReactionDiffusion (E : External) (inputTexture : Frame) (s : State) : State :=
  let s := { s with pipelineRuns := s.pipelineRuns + 1 }
  let s := { s with BlurPass := { s.BlurPass with u_blurSpread := s.controls.blurSpread } }
  let s := { s with UnsharpPass := { s.UnsharpPass with u_unsharpRadius := s.controls.unsharpRadius } }
  let s := { s with UnsharpPass := { s.UnsharpPass with u_unsharpAmount := s.controls.unsharpAmount } }
  let s := { s with gfx := { s.gfx with shader := some ShaderId.BlurPass } }
  let s := { s with BlurPass := { s.BlurPass with texelSize := TEXEL_SIZE s } }
  let s := { s with BlurPass := { s.BlurPass with tex0 := Texture.image inputTexture } }
  let s := { s with BlurPass := { s.BlurPass with direction := (1, 0) } }
  let s := quad E s
  let s := { s with gfx := { s.gfx with shader := some ShaderId.BlurPass } }
  let s := { s with BlurPass := { s.BlurPass with texelSize := TEXEL_SIZE s } }
  let s := { s with BlurPass := { s.BlurPass with tex0 := Texture.graphics } }
  let s := { s with BlurPass := { s.BlurPass with direction := (0, 1) } }
  let s := quad E s
  let s := { s with gfx := { s.gfx with shader := some ShaderId.UnsharpPass } }
  let s := { s with UnsharpPass := { s.UnsharpPass with texelSize := TEXEL_SIZE s } }
  let s := { s with UnsharpPass := { s.UnsharpPass with tex0 := Texture.graphics } }
  let s := quad E s
  { s with cnv := s.cnv.image s.gfx.pixels 0 0 }

/-- The function `Cursor`. -/
def Cursor (s : State) : State :=
  let c := s.cnv.push
  let c := c.translate (-(WIDTH s) / 2) (-(HEIGHT s) / 2)
  let c := c.fill s.CURSOR_COLOR
  let c := if s.mouseIsPressed then c.circle s.mouseX s.mouseY s.controls.cursorRadius else c
  let c := c.pop
  { s with cnv := c }

/-- The function `Border`. -/
def Border (s : State) : State :=
  let c := s.cnv.push
  let c := c.noFill
  let c := c.stroke 255
  let c := c.setStrokeWeight (MIN_SIDE s / 24)
  let c := c.rect 0 0 (WIDTH s) (HEIGHT s)
  let c := c.pop
  { s with cnv := c }

/-- The function `p.draw`. -/
def draw (E : External) (s : State) : State :=
  let lastFrame := s.cnv.get
  let s := if s.isLooping then ReactionDiffusion E lastFrame s else s
  let s := Cursor s
  Border s

/-! ## Keyboard -/

/-- Value of a digit character in the given radix, if it is one. -/
def digitValue (radix : ℕ) (c : Char) : Option ℕ :=
  let v : Option ℕ :=
    if '0' ≤ c ∧ c ≤ '9' then some (c.toNat - 48)
    else if 'a' ≤ c ∧ c ≤ 'z' then some (c.toNat - 87)
    else if 'A' ≤ c ∧ c ≤ 'Z' then some (c.toNat - 55)
    else none
  v.filter (fun n => decide (n < radix))

/-- Value of the longest prefix of digits; `none` when it is empty. -/
def parseDigits (radix : ℕ) : List Char → Option ℕ → Option ℕ
  | [], acc => acc
  | c :: cs, acc =>
    match digitValue radix c with
    | some d => parseDigits radix cs (some (acc.getD 0 * radix + d))
    | none => acc

/-- JavaScript `parseInt` of one argument, for the strings a key event carries
in `p.key`; `none` stands for `NaN`. -/
def parseInt (str : String) : Option ℤ :=
  let cs := str.data.dropWhile Char.isWhitespace
  let (neg, cs) :=
    match cs with
    | '-' :: rest => (true, rest)
    | '+' :: rest => (false, rest)
    | _ => (false, cs)
  let n : Option ℕ :=
    match cs with
    | '0' :: 'x' :: rest => parseDigits 16 rest none
    | '0' :: 'X' :: rest => parseDigits 16 rest none
    | _ => parseDigits 10 cs none
  n.map (fun v => if neg then -(v : ℤ) else (v : ℤ))

/-- The fraction of `[0, 1)` an entry of the random stream stands for. -/
def randomUnit (e : ℕ × ℕ) : ℚ := ((e.1 % (e.2 + 1) : ℕ) : ℚ) / ((e.2 + 1 : ℕ) : ℚ)

/-- The call `p.random(max)`: the value drawn and the state afterwards. -/
def random (max : ℚ) (s : State) : ℚ × State :=
  (randomUnit (s.randomStream s.randomCalls) * max, { s with randomCalls := s.randomCalls + 1 })

/-- The loop of the `r` branch with `n` iterations left. -/
def randomPoints : ℕ → State → State
  | 0, s => s
  | n + 1, s =>
    let (x, s) := random (WIDTH s) s
    let (y, s) := random (HEIGHT s) s
    let s := { s with cnv := s.cnv.circle x y s.controls.randomPointSize }
    randomPoints n s

/-- The loop of the digit branch with `n` iterations left. -/
def processFrames (E : External) : ℕ → State → State
  | 0, s => s
  | n + 1, s =>
    let lastFrame := s.cnv.get
    let s := ReactionDiffusion E lastFrame s
    let s := Cursor s
    let s := Border s
    processFrames E n s

/-- The function `p.keyPressed`, for the value `key` of `p.key`. -/
def keyPressed (E : External) (key : String) (s : State) : State :=
  if s.activeElementIsText then s
  else
    let s :=
      if key = " " then
        let s := { s with isLooping := !s.isLooping }
        let s := { s with controls :=
          { s.controls with simulationStatus := if s.isLooping then "Running" else "Paused" } }
        updateStatusDisplay s
      else s
    let s := if key = "b" then updateCursorColor s else s
    let s := if key = "c" then { s with cnv := s.cnv.background 255 } else s
    let s :=
      if key = "r" then
        let s := pauseSimulation s
        let c := s.cnv.push
        let c := c.translate (-(WIDTH s) / 2) (-(HEIGHT s) / 2)
        let c := c.fill 0
        let c := c.noStroke
        let s := { s with cnv := c }
        let s := randomPoints s.controls.randomPointCount s
        { s with cnv := s.cnv.pop }
      else s
    let s :=
      if key = "t" then
        let s := pauseSimulation s
        submitText E s
      else s
    let s := if key = "s" then { s with savedCanvases := s.cnv.get :: s.savedCanvases } else s
    match parseInt key with
    | some num =>
      if 0 ≤ num ∧ num ≤ 9 then
        if !s.isLooping then
          let framesToProcess := if num = 0 then 10 else num
          processFrames E framesToProcess.toNat s
        else s
      else s
    | none => s

/-! ## Page load, `setup`, and the events of a session -/

/-- A fully transparent frame: the content of a new buffer. -/
def blank : Frame := fun _ _ => ⟨0, 0, 0, 0⟩

/-- The state once the closure's variables are initialised (lines 34-153),
before `setup` has run: the canvases do not exist yet and stand as blank ones. -/
def initial (item : Option ℕ) (stream : ℕ → ℕ × ℕ) : State :=
  let res : ℚ := savedResolution item
  { savedResolution := savedResolution item
    CURSOR_COLOR := 255
    TEXT_FILL_COLOR := 255
    TEXT_STROKE_COLOR := 0
    isLooping := true
    statusDisplayController := none
    cursorColorDisplayController := none
    textFillColorDisplayController := none
    textStrokeColorDisplayController := none
    fontDisplayController := none
    controls :=
      { resolution := res
        simulationStatus := "Running"
        cursorRadius := min res res / 6
        currentCursorColor := "White"
        textInput := "模様"
        textSize := 250 * (res / 600)
        textWeight := 0
        outlineWeight := 15 * (res / 600)
        currentTextFillColor := "White"
        currentTextStrokeColor := "Black"
        fontName := "Mincho"
        randomPointCount := 50
        randomPointSize := 50
        blurSpread := 1
        unsharpRadius := 7 / 2
        unsharpRadius_GUI := 7 / 2
        unsharpAmount := 64 }
    cnv := ⟨res, res, blank, Style.initial, []⟩
    gfx := ⟨blank, none⟩
    BlurPass := ⟨0, (0, 0), Texture.image blank, (0, 0)⟩
    UnsharpPass := ⟨0, 0, (0, 0), Texture.image blank⟩
    textBuffer := ⟨TextBuffer.initialStyle, [], []⟩
    mouseIsPressed := false
    mouseX := 0
    mouseY := 0
    activeElementIsText := false
    randomStream := stream
    randomCalls := 0
    storedResolution := item
    savedCanvases := []
    pipelineRuns := 0
    statusDisplayUpdates := 0 }

/-- The function `p.setup`. -/
def setup (E : External) (s : State) : State :=
  let s := { s with cnv := ⟨WIDTH s, HEIGHT s, blank, Style.initial, []⟩ }
  let s := { s with gfx := ⟨blank, none⟩ }
  let s := { s with textBuffer := ⟨TextBuffer.initialStyle, [], []⟩ }
  let s := { s with BlurPass := ⟨0, (0, 0), Texture.image blank, (0, 0)⟩ }
  let s := { s with UnsharpPass := ⟨0, 0, (0, 0), Texture.image blank⟩ }
  let s := { s with cnv := s.cnv.background 0 }
  let s := { s with cnv := s.cnv.noStroke }
  let s := { s with statusDisplayController := some s.controls.simulationStatus }
  let s := { s with cursorColorDisplayController := some s.controls.currentCursorColor }
  let s := { s with textFillColorDisplayController := some s.controls.currentTextFillColor }
  let s := { s with textStrokeColorDisplayController := some s.controls.currentTextStrokeColor }
  let s := { s with fontDisplayController := some s.controls.fontName }
  let s := { s with cnv := { s.cnv with pixels := E.seed (WIDTH s) (HEIGHT s) } }
  draw E (draw E (draw E s))

/-- The state a page load ends in. -/
def start (E : External) (item : Option ℕ) (stream : ℕ → ℕ × ℕ) : State :=
  setup E (initial item stream)

/-- A slider of the panel keeps its value between its bounds. -/
def clamp (lo hi v : ℚ) : ℚ := max lo (min hi v)

/-- What can happen after the page has loaded: a display refresh, a key press,
a button or an edit in the control panel, and pointer and focus changes. -/
inductive Event where
  | draw
  | keyPressed (key : String)
  | toggleCursorColor
  | toggleTextColors
  | toggleFont
  | submitText
  | setResolution (value : ℕ)
  | setCursorRadius (value : ℚ)
  | setTextInput (value : String)
  | setTextSize (value : ℚ)
  | setTextWeight (value : ℚ)
  | setOutlineWeight (value : ℚ)
  | setUnsharpRadius (value : ℚ)
  | setRandomPointCount (value : ℕ)
  | setRandomPointSize (value : ℚ)
  | mouse (pressed : Bool) (x y : ℚ)
  | focus (onText : Bool)

/-- The effect of one event.  A resolution change stores the value and reloads
the page; the text field is a one-line input, which holds no line break. -/
def step (E : External) (e : Event) (s : State) : State :=
  match e with
  | Event.draw => draw E s
  | Event.keyPressed key => keyPressed E key s
  | Event.toggleCursorColor => toggleCursorColor s
  | Event.toggleTextColors => toggleTextColors s
  | Event.toggleFont => toggleFont s
  | Event.submitText => submitText E s
  | Event.setResolution value =>
    if value ∈ [100, 200, 300, 400, 500, 600] then
      let t := start E (some value) s.randomStream
      { t with randomCalls := s.randomCalls }
    else s
  | Event.setCursorRadius value =>
    { s with controls := { s.controls with cursorRadius := clamp 10 (150 * uiScale s) value } }
  | Event.setTextInput value =>
    { s with controls := { s.controls with
        textInput := ⟨value.data.filter (fun c => c ≠ '\n' ∧ c ≠ '\r')⟩ } }
  | Event.setTextSize value =>
    { s with controls := { s.controls with
        textSize := clamp (100 * uiScale s) (500 * uiScale s) value } }
  | Event.setTextWeight value =>
    { s with controls := { s.controls with textWeight := clamp 0 (30 * uiScale s) value } }
  | Event.setOutlineWeight value =>
    { s with controls := { s.controls with outlineWeight := clamp 0 (30 * uiScale s) value } }
  | Event.setUnsharpRadius value =>
    let s := { s with controls := { s.controls with unsharpRadius_GUI := clamp 1 20 value } }
    { s with controls := { s.controls with unsharpRadius := s.controls.unsharpRadius_GUI } }
  | Event.setRandomPointCount value =>
    { s with controls := { s.controls with randomPointCount := max 1 (min 100 value) } }
  | Event.setRandomPointSize value =>
    { s with controls := { s.controls with randomPointSize := clamp 10 100 value } }
  | Event.mouse pressed x y => { s with mouseIsPressed := pressed, mouseX := x, mouseY := y }
  | Event.focus onText => { s with activeElementIsText := onText }

/-- The state after a sequence of events, oldest first. -/
def run (E : External) (events : List Event) (s : State) : State :=
  events.foldl (fun s e => step E e s) s

/-! ## The operations in the words of the specification -/

/-- BlurStage: a horizontal pass, then a vertical pass on the horizontal
result. -/
def blur (E : External) (texel : ℚ × ℚ) (input : Frame) (spread : ℚ) : Frame :=
  E.BLUR spread texel (0, 1) (E.BLUR spread texel (1, 0) input)

/-- UnsharpStage: one unsharp pass over the blurred texture. -/
def sharpen (E : External) (texel : ℚ × ℚ) (blurred : Frame) (radius amount : ℚ) : Frame :=
  E.UNSHARP radius amount texel blurred

/-- Pipeline: `run(frame) = sharpen(blur(frame, spread), radius, amount)` with
the parameters of the control panel and texel size `(1/WIDTH, 1/HEIGHT)`. -/
def Pipeline.run (E : External) (s : State) (frame : Frame) : Frame :=
  let texel : ℚ × ℚ := (1 / WIDTH s, 1 / HEIGHT s)
  sharpen E texel (blur E texel frame s.controls.blurSpread)
    s.controls.unsharpRadius s.controls.unsharpAmount

/-- Pixel `(i, j)` lies in the disc of diameter `d` centred at `(x, y)`, in canvas
coordinates (origin at the top-left corner, pixel centres at half-integers). -/
def inDisc (x y d : ℚ) (i j : ℤ) : Bool :=
  decide (((i : ℚ) + 1 / 2 - x) ^ 2 + ((j : ℚ) + 1 / 2 - y) ^ 2 ≤ (d / 2) ^ 2)

/-- CursorStamp: while the pointer is pressed, a filled disc of diameter
`cursorRadius` at the pointer, in the cursor colour. -/
def cursorFrame (s : State) (F : Frame) : Frame :=
  if s.mouseIsPressed then
    paint (inDisc s.mouseX s.mouseY s.controls.cursorRadius) (gray s.CURSOR_COLOR) F
  else F

/-- Pixel `(i, j)` is covered by the outline of weight `sw` drawn on the boundary
of the canvas rectangle `[0, W] × [0, H]`: its centre is within `sw / 2` of the
boundary, inside or outside. -/
def onOutline (W H sw : ℚ) (i j : ℤ) : Bool :=
  decide (|max (|(i : ℚ) + 1 / 2 - W / 2| - W / 2) (|(j : ℚ) + 1 / 2 - H / 2| - H / 2)| ≤ sw / 2)

/-- Border: the outline of weight `MIN_SIDE / 24` at the canvas bounds, in white. -/
def borderFrame (s : State) (F : Frame) : Frame :=
  paint (onOutline (WIDTH s) (HEIGHT s) (MIN_SIDE s / 24)) (gray 255) F

/-- The line-break-separated pieces of a text, or with `sep = '/'` the
delimiter-separated segments of a content string. -/
def pieces (sep : Char) : List Char → List (List Char)
  | [] => [[]]
  | c :: cs =>
    if c = sep then [] :: pieces sep cs
    else
      match pieces sep cs with
      | [] => [[c]]
      | l :: ls => (c :: l) :: ls

/-- The drawing state `setup` leaves the main canvas in, which every function
of the sketch restores before it returns. -/
def Style.rest : Style := ⟨some (gray 255), none, 1, 0, 0⟩

/-- The main canvas is as `setup` leaves it: of the size `WIDTH × HEIGHT`, a
positive one, and in the rest drawing state. -/
def Ready (s : State) : Prop :=
  0 < s.savedResolution ∧ s.cnv.w = WIDTH s ∧ s.cnv.h = HEIGHT s ∧ s.cnv.style = Style.rest

instance (s : State) : Decidable (Ready s) := by
  unfold Ready; exact inferInstance

/-- The pixels `Border` paints, whatever drawing state it is called in. -/
def borderCover (s : State) : ℤ → ℤ → Bool :=
  fun i j =>
    decide (|max (|s.cnv.centreX i - (0 + s.cnv.style.tx)| - WIDTH s / 2)
        (|s.cnv.centreY j - (0 + s.cnv.style.ty)| - HEIGHT s / 2)| ≤ MIN_SIDE s / 24 / 2)

/-- The variables no drawing operation writes. -/
structure Core where
  savedResolution : ℕ
  CURSOR_COLOR : ℤ
  TEXT_FILL_COLOR : ℤ
  TEXT_STROKE_COLOR : ℤ
  isLooping : Bool
  statusDisplayController : Option String
  cursorColorDisplayController : Option String
  textFillColorDisplayController : Option String
  textStrokeColorDisplayController : Option String
  fontDisplayController : Option String
  controls : Controls
  mouseIsPressed : Bool
  mouseX : ℚ
  mouseY : ℚ
  activeElementIsText : Bool
  randomStream : ℕ → ℕ × ℕ
  storedResolution : Option ℕ
  statusDisplayUpdates : ℕ

/-- The part of a state that drawing leaves alone. -/
def State.core (s : State) : Core :=
  { savedResolution := s.savedResolution
    CURSOR_COLOR := s.CURSOR_COLOR
    TEXT_FILL_COLOR := s.TEXT_FILL_COLOR
    TEXT_STROKE_COLOR := s.TEXT_STROKE_COLOR
    isLooping := s.isLooping
    statusDisplayController := s.statusDisplayController
    cursorColorDisplayController := s.cursorColorDisplayController
    textFillColorDisplayController := s.textFillColorDisplayController
    textStrokeColorDisplayController := s.textStrokeColorDisplayController
    fontDisplayController := s.fontDisplayController
    controls := s.controls
    mouseIsPressed := s.mouseIsPressed
    mouseX := s.mouseX
    mouseY := s.mouseY
    activeElementIsText := s.activeElementIsText
    randomStream := s.randomStream
    storedResolution := s.storedResolution
    statusDisplayUpdates := s.statusDisplayUpdates }

/-- One tick-equivalent: the body of the digit loop, which is also what `p.draw`
does while running. -/
def tick (E : External) (s : State) : State :=
  Border (Cursor (ReactionDiffusion E s.cnv.get s))

/-- The tick-equivalent on frames, for the parameters and pointer state of `s`:
`Border(Cursor(Pipeline.run(F)))`. -/
def tickFrame (E : External) (s : State) (F : Frame) : Frame :=
  borderFrame s (cursorFrame s (Pipeline.run E s F))

/-- A sample shader pair and rasteriser for the worked examples: the blur
passes copy their input, the unsharp pass inverts the red channel into a grey,
text paints nothing, the seed is white. -/
def sampleExternal : External :=
  { BLUR := fun _ _ _ F => F
    UNSHARP := fun _ _ _ F => fun i j => gray (255 - (F i j).r)
    textOver := fun _ F => F
    seed := fun _ _ => fun _ _ => gray 255 }

/-- A sample state for the worked examples: the variables as the page load
leaves them at the default resolution 300, on an all-white canvas. -/
def sampleState : State :=
  { initial none (fun n => (7 * n + 3, 9)) with
    cnv := ⟨300, 300, fun _ _ => gray 255, Style.rest, []⟩ }

/-! ### The branches of `p.keyPressed`, one by one -/

/-- The branch `if (p.key === " ")`. -/
def spaceBranch (key : String) (s : State) : State :=
  if key = " " then
    let s := { s with isLooping := !s.isLooping }
    let s := { s with controls :=
      { s.controls with simulationStatus := if s.isLooping then "Running" else "Paused" } }
    updateStatusDisplay s
  else s

/-- The branch `if (p.key === "b")`. -/
def bBranch (key : String) (s : State) : State :=
  if key = "b" then updateCursorColor s else s

/-- The branch `if (p.key === "c")`. -/
def cBranch (key : String) (s : State) : State :=
  if key = "c" then { s with cnv := s.cnv.background 255 } else s

/-- The branch `if (p.key === "r")`. -/
def rBranch (key : String) (s : State) : State :=
  if key = "r" then
    let s := pauseSimulation s
    let c := s.cnv.push
    let c := c.translate (-(WIDTH s) / 2) (-(HEIGHT s) / 2)
    let c := c.fill 0
    let c := c.noStroke
    let s := { s with cnv := c }
    let s := randomPoints s.controls.randomPointCount s
    { s with cnv := s.cnv.pop }
  else s

/-- The branch `if (p.key === "t")`. -/
def tBranch (E : External) (key : String) (s : State) : State :=
  if key = "t" then
    let s := pauseSimulation s
    submitText E s
  else s

/-- The branch `if (p.key === "s")`. -/
def sBranch (key : String) (s : State) : State :=
  if key = "s" then { s with savedCanvases := s.cnv.get :: s.savedCanvases } else s

/-- The digit branch, from `const num = parseInt(p.key)` on. -/
def digitBranch (E : External) (key : String) (s : State) : State :=
  match parseInt key with
  | some num =>
    if 0 ≤ num ∧ num ≤ 9 then
      if !s.isLooping then
        let framesToProcess := if num = 0 then 10 else num
        processFrames E framesToProcess.toNat s
      else s
    else s
  | none => s

/-- The `p.key` of the digit key `d`. -/
def digitKey (d : ℕ) : String := String.singleton (Char.ofNat (48 + d))

/-- The centres the `r` branch draws: `n` pairs taken from the random stream
from position `k` on, scaled to `W × H`. -/
def randomCentres (stream : ℕ → ℕ × ℕ) (W H : ℚ) : ℕ → ℕ → List (ℚ × ℚ)
  | _, 0 => []
  | k, n + 1 =>
    (randomUnit (stream k) * W, randomUnit (stream (k + 1)) * H) ::
      randomCentres stream W H (k + 2) n

/-- The frame after filled discs of diameter `d` and colour `c` are drawn at the
given centres, in order. -/
def stampDiscs (c : Color) (d : ℚ) (centres : List (ℚ × ℚ)) (F : Frame) : Frame :=
  centres.foldl (fun G p => paint (inDisc p.1 p.2 d) c G) F

/-- The number of frames a digit key stands for: 10 for `0`, the digit itself
otherwise. -/
def framesFor (d : ℕ) : ℕ := if d = 0 then 10 else d

/-- A reachable state whose content holds a delimiter: the page load followed
by typing `AB/CD` into the text field. -/
def slashState : State :=
  run sampleExternal [Event.setTextInput "AB/CD"]
    (start sampleExternal none (fun n => (7 * n + 3, 9)))

/-- The sample state, paused, with the text field of the panel focused. -/
def textFocusedState : State :=
  { pauseSimulation sampleState with activeElementIsText := true }

/-- The sample state, running, with the text field of the panel focused. -/
def typingState : State := { sampleState with activeElementIsText := true }

/-- What holds of the variables in every state of a session: the status text
and its widget follow `isLooping`; the text colours are `0` or `255` and
inverse to each other; the colour names and their widgets follow the values;
the content of the one-line text field holds no line feed. -/
def CoreInv (c : Core) : Prop :=
  c.controls.simulationStatus = (if c.isLooping then "Running" else "Paused") ∧
  c.statusDisplayController = some c.controls.simulationStatus ∧
  (c.TEXT_FILL_COLOR = 255 ∨ c.TEXT_FILL_COLOR = 0) ∧
  c.TEXT_STROKE_COLOR = 255 - c.TEXT_FILL_COLOR ∧
  c.controls.currentTextFillColor = colorName c.TEXT_FILL_COLOR ∧
  c.controls.currentTextStrokeColor = colorName c.TEXT_STROKE_COLOR ∧
  c.textFillColorDisplayController = some c.controls.currentTextFillColor ∧
  c.textStrokeColorDisplayController = some c.controls.currentTextStrokeColor ∧
  (c.CURSOR_COLOR = 255 ∨ c.CURSOR_COLOR = 0) ∧
  c.controls.currentCursorColor = colorName c.CURSOR_COLOR ∧
  c.cursorColorDisplayController = some c.controls.currentCursorColor ∧
  '\n' ∉ c.controls.textInput.data

/-- The invariant of a session. -/
def Inv (s : State) : Prop := CoreInv s.core ∧ Ready s

/-- The states a session can be in: those reached from a page load by a finite
sequence of events. -/
def Reachable (E : External) (s : State) : Prop :=
  ∃ (item : Option ℕ) (stream : ℕ → ℕ × ℕ) (events : List Event),
    s = run E events (start E item stream)

/-- A reachable state with the text field focused: the page load followed by a
click into the field. -/
def focusedStart : State :=
  run sampleExternal [Event.focus true] (start sampleExternal none (fun n => (7 * n + 3, 9)))

/-! ## The drawing buffer, sample by sample

With anti-aliasing the drawing buffer of the main canvas keeps several samples
for every pixel.  A shape writes the samples it covers, and what `p.get()` reads
for a pixel is the mean of its samples.  `Canvas` above is the case of one
sample at the pixel centre; `SampledCanvas` keeps every sample, which is what
decides the pixels on the rim of a stroke. -/

/-- The main canvas with its samples: `offsets` are the positions of the
samples inside a pixel (each coordinate in `[0, 1)`), `samples i j k` is the
colour of sample `k` of pixel `(i, j)`. -/
structure SampledCanvas where
  w : ℚ
  h : ℚ
  offsets : List (ℚ × ℚ)
  samples : ℤ → ℤ → ℕ → Color
  style : Style
  saved : List Style

/-- The sample pattern of four-fold multisampling. -/
def fourSamples : List (ℚ × ℚ) := [(3 / 8, 1 / 8), (7 / 8, 3 / 8), (1 / 8, 5 / 8), (5 / 8, 7 / 8)]

/-- Set the samples selected by `cover` to colour `c`, keep the others. -/
def paintSamples (cover : ℤ → ℤ → ℕ → Bool) (c : Color) (S : ℤ → ℤ → ℕ → Color) :
    ℤ → ℤ → ℕ → Color :=
  fun i j k => if cover i j k then c else S i j k

/-- The mean of `f 0, …, f (n - 1)`, rounded to the nearest integer, halves up. -/
def meanRounded (n : ℕ) (f : ℕ → ℤ) : ℤ :=
  (2 * ((List.range n).map f).sum + n) / (2 * n)

namespace SampledCanvas

/-- Coordinates, in the WEBGL system (origin at the canvas centre), of sample `k`
of pixel `(i, j)`. -/
def sampleX (c : SampledCanvas) (i : ℤ) (k : ℕ) : ℚ :=
  (i : ℚ) + (c.offsets.getD k (1 / 2, 1 / 2)).1 - c.w / 2

/-- See `sampleX`. -/
def sampleY (c : SampledCanvas) (j : ℤ) (k : ℕ) : ℚ :=
  (j : ℚ) + (c.offsets.getD k (1 / 2, 1 / 2)).2 - c.h / 2

/-- Model of `p.push()`. -/
def push (c : SampledCanvas) : SampledCanvas := { c with saved := c.style :: c.saved }

/-- Model of `p.pop()`. -/
def pop (c : SampledCanvas) : SampledCanvas :=
  match c.saved with
  | [] => c
  | st :: rest => { c with style := st, saved := rest }

/-- Model of `p.noFill()`. -/
def noFill (c : SampledCanvas) : SampledCanvas :=
  { c with style := { c.style with fill := none } }

/-- Model of `p.stroke(v)`. -/
def stroke (v : ℤ) (c : SampledCanvas) : SampledCanvas :=
  { c with style := { c.style with stroke := some (gray v) } }

/-- Model of `p.strokeWeight(w)`. -/
def setStrokeWeight (w : ℚ) (c : SampledCanvas) : SampledCanvas :=
  { c with style := { c.style with strokeWeight := w } }

/-- Signed distance (maximum norm) from sample `k` of pixel `(i, j)` to the
boundary of the rectangle of size `rw × rh` centred at `(x, y)`: negative
inside, positive outside. -/
def rectDist (c : SampledCanvas) (x y rw rh : ℚ) (i j : ℤ) (k : ℕ) : ℚ :=
  max (|c.sampleX i k - (x + c.style.tx)| - rw / 2) (|c.sampleY j k - (y + c.style.ty)| - rh / 2)

/-- Samples inside the rectangle (`rectMode(CENTER)`). -/
def rectCover (c : SampledCanvas) (x y rw rh : ℚ) : ℤ → ℤ → ℕ → Bool :=
  fun i j k => decide (c.rectDist x y rw rh i j k ≤ 0)

/-- Samples on the outline of the rectangle, drawn with the current stroke
weight: those within half the weight of the boundary, on either side. -/
def outlineCover (c : SampledCanvas) (x y rw rh : ℚ) : ℤ → ℤ → ℕ → Bool :=
  fun i j k => decide (|c.rectDist x y rw rh i j k| ≤ c.style.strokeWeight / 2)

/-- Model of `p.rect(x, y, w, h)` under `rectMode(CENTER)`. -/
def rect (x y rw rh : ℚ) (c : SampledCanvas) : SampledCanvas :=
  let filled : ℤ → ℤ → ℕ → Color :=
    match c.style.fill with
    | some col => paintSamples (c.rectCover x y rw rh) col c.samples
    | none => c.samples
  let stroked : ℤ → ℤ → ℕ → Color :=
    match c.style.stroke with
    | some col => paintSamples (c.outlineCover x y rw rh) col filled
    | none => filled
  { c with samples := stroked }

/-- Model of `p.get()`: every pixel is the mean of its samples, channel by
channel. -/
def get (c : SampledCanvas) : Frame :=
  fun i j =>
    ⟨meanRounded c.offsets.length (fun k => (c.samples i j k).r),
     meanRounded c.offsets.length (fun k => (c.samples i j k).g),
     meanRounded c.offsets.length (fun k => (c.samples i j k).b),
     meanRounded c.offsets.length (fun k => (c.samples i j k).a)⟩

/-- The function `Border` on the sampled canvas of a page loaded at resolution
`savedResolution`, where `WIDTH = HEIGHT = MIN_SIDE = savedResolution`. -/
def Border (savedResolution : ℕ) (c : SampledCanvas) : SampledCanvas :=
  let c := c.push
  let c := c.noFill
  let c := c.stroke 255
  let c := c.setStrokeWeight (min (savedResolution : ℚ) (savedResolution : ℚ) / 24)
  let c := c.rect 0 0 (savedResolution : ℚ) (savedResolution : ℚ)
  let c := c.pop
  c

/-- The samples `Border` paints, whatever drawing state it is called in. -/
def borderCover (savedResolution : ℕ) (c : SampledCanvas) : ℤ → ℤ → ℕ → Bool :=
  fun i j k =>
    decide (|max (|c.sampleX i k - (0 + c.style.tx)| - (savedResolution : ℚ) / 2)
        (|c.sampleY j k - (0 + c.style.ty)| - (savedResolution : ℚ) / 2)|
      ≤ min (savedResolution : ℚ) (savedResolution : ℚ) / 24 / 2)

end SampledCanvas

/-- The sampled canvas that holds, in its one sample per pixel at the pixel
centre, the pixels of the main canvas of `s`. -/
def oneSample (s : State) : SampledCanvas :=
  ⟨s.cnv.w, s.cnv.h, [(1 / 2, 1 / 2)], fun i j _ => s.cnv.pixels i j, s.cnv.style, s.cnv.saved⟩

/-- A four-sample canvas of `res × res` pixels, black everywhere, in the rest
drawing state. -/
def blackBuffer (res : ℕ) : SampledCanvas :=
  ⟨res, res, fourSamples, fun _ _ _ => gray 0, Style.rest, []⟩

/-- Distance from the point `(x, y)`, in canvas coordinates, to the nearest edge
of the canvas rectangle `[0, W] × [0, H]`, for a point of the canvas. -/
def edgeDistanceAt (W H x y : ℚ) : ℚ := min (min x (W - x)) (min y (H - y))

/-! ## Basic facts about the building blocks -/

theorem updateStatusDisplay_isLooping (s : State) :
    (updateStatusDisplay s).isLooping = s.isLooping := by
  unfold updateStatusDisplay; split <;> rfl

theorem updateStatusDisplay_status (s : State) :
    (updateStatusDisplay s).controls = s.controls := by
  unfold updateStatusDisplay; split <;> rfl

theorem pauseSimulation_isLooping (s : State) : (pauseSimulation s).isLooping = false := by
  unfold pauseSimulation
  by_cases h : s.isLooping
  · simp [h, updateStatusDisplay_isLooping]
  · simp [h]

theorem pauseSimulation_of_paused (s : State) (h : s.isLooping = false) :
    pauseSimulation s = s := by
  simp [pauseSimulation, h]

/-! ### Overlay drawing -/

theorem Cursor_frozen (s : State) : Cursor s = { s with cnv := (Cursor s).cnv } := rfl

theorem Border_frozen (s : State) : Border s = { s with cnv := (Border s).cnv } := rfl

theorem Cursor_cnv (s : State) (h : Ready s) :
    (Cursor s).cnv = { s.cnv with pixels := cursorFrame s s.cnv.pixels } := by
  obtain ⟨_, hw, hh, hst⟩ := h
  have hcov : ∀ c : Canvas, c.w = WIDTH s → c.h = HEIGHT s → c.style.tx = -(WIDTH s) / 2 →
      c.style.ty = -(HEIGHT s) / 2 → ∀ x y d, c.discCover x y d = inDisc x y d := by
    intro c h1 h2 h3 h4 x y d
    funext i j
    simp only [Canvas.discCover, inDisc, Canvas.centreX, Canvas.centreY, h1, h2, h3, h4]
    congr 2
    ring
  cases hp : s.mouseIsPressed
  · simp [Cursor, cursorFrame, hp, Canvas.push, Canvas.pop, Canvas.translate, Canvas.fill]
  · have := hcov ((s.cnv.push.translate (-(WIDTH s) / 2) (-(HEIGHT s) / 2)).fill s.CURSOR_COLOR)
      hw hh (by simp [Canvas.push, Canvas.translate, Canvas.fill, hst, Style.rest])
      (by simp [Canvas.push, Canvas.translate, Canvas.fill, hst, Style.rest])
      s.mouseX s.mouseY s.controls.cursorRadius
    simp only [Cursor, cursorFrame, hp, if_true, Canvas.circle, this]
    simp [Canvas.push, Canvas.pop, Canvas.translate, Canvas.fill, hst, Style.rest]

theorem Border_cnv_general (s : State) :
    (Border s).cnv = { s.cnv with pixels := paint (borderCover s) (gray 255) s.cnv.pixels } := by
  simp only [Border, Canvas.push, Canvas.pop, Canvas.noFill, Canvas.stroke,
    Canvas.setStrokeWeight, Canvas.rect]
  congr 1

theorem borderCover_of_ready (s : State) (h : Ready s) :
    borderCover s = onOutline (WIDTH s) (HEIGHT s) (MIN_SIDE s / 24) := by
  obtain ⟨_, hw, hh, hst⟩ := h
  funext i j
  simp [borderCover, onOutline, Canvas.centreX, Canvas.centreY, hw, hh, hst, Style.rest]

theorem Border_cnv (s : State) (h : Ready s) :
    (Border s).cnv = { s.cnv with pixels := borderFrame s s.cnv.pixels } := by
  rw [Border_cnv_general, borderCover_of_ready s h]; rfl

theorem abs_sub_half (a W : ℚ) : |a - W / 2| - W / 2 = -min a (W - a) := by
  rcases le_total a (W - a) with h | h
  · rw [min_eq_left h, abs_of_nonpos (by linarith)]; ring
  · rw [min_eq_right h, abs_of_nonneg (by linarith)]; ring

/-! ### The pipeline -/

theorem ReactionDiffusion_frozen (E : External) (F : Frame) (s : State) :
    ReactionDiffusion E F s =
      { s with pipelineRuns := s.pipelineRuns + 1
               BlurPass := (ReactionDiffusion E F s).BlurPass
               UnsharpPass := (ReactionDiffusion E F s).UnsharpPass
               gfx := (ReactionDiffusion E F s).gfx
               cnv := (ReactionDiffusion E F s).cnv } := by
  simp [ReactionDiffusion, quad]

theorem ReactionDiffusion_gfx (E : External) (F : Frame) (s : State) :
    (ReactionDiffusion E F s).gfx.pixels =
      E.UNSHARP s.controls.unsharpRadius s.controls.unsharpAmount (TEXEL_SIZE s)
        (E.BLUR s.controls.blurSpread (TEXEL_SIZE s) (0, 1)
          (E.BLUR s.controls.blurSpread (TEXEL_SIZE s) (1, 0) F)) := by
  simp [ReactionDiffusion, quad, Texture.resolve, TEXEL_SIZE, WIDTH, HEIGHT]

theorem TEXEL_SIZE_eq (s : State) : TEXEL_SIZE s = (1 / WIDTH s, 1 / HEIGHT s) := by
  simp [TEXEL_SIZE, PIXEL_DENSITY]

theorem ReactionDiffusion_cnv (E : External) (F : Frame) (s : State)
    (hx : s.cnv.style.tx = 0) (hy : s.cnv.style.ty = 0) :
    (ReactionDiffusion E F s).cnv = { s.cnv with pixels := Pipeline.run E s F } := by
  have h := ReactionDiffusion_gfx E F s
  have hc : (ReactionDiffusion E F s).cnv
      = s.cnv.image (ReactionDiffusion E F s).gfx.pixels 0 0 := by
    simp [ReactionDiffusion, quad]
  rw [hc, h, TEXEL_SIZE_eq]
  simp [Canvas.image, hx, hy, Pipeline.run, sharpen, blur]

/-! ### One tick -/

theorem ReactionDiffusion_core (E : External) (F : Frame) (s : State) :
    (ReactionDiffusion E F s).core = s.core := by
  rw [ReactionDiffusion_frozen]; rfl

theorem Border_core (s : State) : (Border s).core = s.core := rfl

theorem Cursor_core (s : State) : (Cursor s).core = s.core := rfl

theorem tick_core (E : External) (s : State) : (tick E s).core = s.core :=
  (Border_core _).trans ((Cursor_core _).trans (ReactionDiffusion_core E _ s))

theorem draw_core (E : External) (s : State) : (draw E s).core = s.core := by
  by_cases h : s.isLooping
  · have : draw E s = tick E s := by simp [draw, tick, h]
    rw [this]; exact tick_core E s
  · have : draw E s = Border (Cursor s) := by simp [draw, h]
    rw [this]; rfl

theorem draw_of_looping (E : External) (s : State) (h : s.isLooping = true) :
    draw E s = tick E s := by
  simp [draw, tick, h]

theorem draw_of_paused (E : External) (s : State) (h : s.isLooping = false) :
    draw E s = Border (Cursor s) := by
  simp [draw, h]

theorem Ready_of_cnv (s t : State) (h : Ready s) (hr : t.savedResolution = s.savedResolution)
    (hc : ∃ F, t.cnv = { s.cnv with pixels := F }) : Ready t := by
  obtain ⟨F, hF⟩ := hc
  obtain ⟨h0, hw, hh, hst⟩ := h
  refine ⟨by rw [hr]; exact h0, ?_, ?_, ?_⟩
  · rw [hF]; simp only [WIDTH, hr]; exact hw
  · rw [hF]; simp only [HEIGHT, hr]; exact hh
  · rw [hF]; exact hst

theorem Ready_Cursor (s : State) (h : Ready s) : Ready (Cursor s) :=
  Ready_of_cnv s _ h rfl ⟨_, Cursor_cnv s h⟩

theorem Ready_Border (s : State) (h : Ready s) : Ready (Border s) :=
  Ready_of_cnv s _ h rfl ⟨_, Border_cnv s h⟩

theorem Ready_ReactionDiffusion (E : External) (F : Frame) (s : State) (h : Ready s) :
    Ready (ReactionDiffusion E F s) := by
  refine Ready_of_cnv s _ h ?_ ⟨_, ReactionDiffusion_cnv E F s ?_ ?_⟩
  · rw [ReactionDiffusion_frozen]
  · rw [h.2.2.2]; rfl
  · rw [h.2.2.2]; rfl

theorem tick_cnv (E : External) (s : State) (h : Ready s) :
    (tick E s).cnv = { s.cnv with pixels := tickFrame E s s.cnv.pixels } := by
  have h1 := Ready_ReactionDiffusion E s.cnv.get s h
  have h2 := Ready_Cursor _ h1
  have e1 := ReactionDiffusion_cnv E s.cnv.get s (by rw [h.2.2.2]; rfl) (by rw [h.2.2.2]; rfl)
  unfold tick
  rw [Border_cnv _ h2, Cursor_cnv _ h1, e1]
  have hc := ReactionDiffusion_core E s.cnv.get s
  have c1 : cursorFrame (ReactionDiffusion E s.cnv.get s) = cursorFrame s := by
    funext F
    simp only [cursorFrame, ← show ∀ t : State, t.core.mouseIsPressed = t.mouseIsPressed from
      fun _ => rfl, ← show ∀ t : State, t.core.mouseX = t.mouseX from fun _ => rfl,
      ← show ∀ t : State, t.core.mouseY = t.mouseY from fun _ => rfl,
      ← show ∀ t : State, t.core.controls = t.controls from fun _ => rfl,
      ← show ∀ t : State, t.core.CURSOR_COLOR = t.CURSOR_COLOR from fun _ => rfl, hc]
  have c2 : borderFrame (Cursor (ReactionDiffusion E s.cnv.get s)) = borderFrame s := by
    funext F
    have hr : (Cursor (ReactionDiffusion E s.cnv.get s)).savedResolution = s.savedResolution :=
      congrArg Core.savedResolution hc
    simp only [borderFrame, WIDTH, HEIGHT, MIN_SIDE, hr]
  rw [c1, c2]
  rfl

theorem Ready_tick (E : External) (s : State) (h : Ready s) : Ready (tick E s) :=
  Ready_of_cnv s _ h (congrArg Core.savedResolution (tick_core E s)) ⟨_, tick_cnv E s h⟩

theorem Ready_draw (E : External) (s : State) (h : Ready s) : Ready (draw E s) := by
  cases hl : s.isLooping
  · rw [draw_of_paused E s hl]; exact Ready_Border _ (Ready_Cursor _ h)
  · rw [draw_of_looping E s hl]; exact Ready_tick E s h

theorem tick_pipelineRuns (E : External) (s : State) :
    (tick E s).pipelineRuns = s.pipelineRuns + 1 := by
  have : (tick E s).pipelineRuns = (ReactionDiffusion E s.cnv.get s).pipelineRuns := rfl
  rw [this, ReactionDiffusion_frozen]

/-! ### The sample state -/

theorem sampleState_ready : Ready sampleState := by
  refine ⟨by decide, ?_, ?_, rfl⟩ <;>
    simp [sampleState, initial, savedResolution, WIDTH, HEIGHT]

theorem draw_pipelineRuns (E : External) (s : State) :
    (draw E s).pipelineRuns = s.pipelineRuns + (if s.isLooping then 1 else 0) := by
  cases h : s.isLooping
  · rw [draw_of_paused E s h]; rfl
  · rw [draw_of_looping E s h, tick_pipelineRuns]; rfl

theorem draw_pixels (E : External) (s : State) (h : Ready s) :
    (draw E s).cnv.pixels =
      borderFrame s (cursorFrame s
        (if s.isLooping then Pipeline.run E s s.cnv.pixels else s.cnv.pixels)) := by
  cases hl : s.isLooping
  · rw [draw_of_paused E s hl, Border_cnv _ (Ready_Cursor s h), Cursor_cnv s h]
    rfl
  · rw [draw_of_looping E s hl, tick_cnv E s h]
    rfl

theorem cursorFrame_of_released (s : State) (h : s.mouseIsPressed = false) (F : Frame) :
    cursorFrame s F = F := by
  simp [cursorFrame, h]

/-! ## The properties of the specification -/

/-- C1: one tick `p.draw` is `Border ∘ Cursor ∘ P` applied to the state it
starts from, with `P` the pipeline run on the frame read at the start of the tick
when running and nothing when paused; it keeps `isLooping`, runs the pipeline
once when running and never when paused, and on a canvas in its rest drawing
state the frame becomes `Border(Cursor(P(F)))`, which is `Border(Pipeline.run(F))`
when running with no pointer press. -/
theorem draw_is_border_cursor_pipeline (E : External) (s : State) :
    draw E s = Border (Cursor (if s.isLooping then ReactionDiffusion E s.cnv.get s else s)) ∧
    (draw E s).isLooping = s.isLooping ∧
    (draw E s).pipelineRuns = s.pipelineRuns + (if s.isLooping then 1 else 0) ∧
    (Ready s →
      (draw E s).cnv.pixels =
        borderFrame s (cursorFrame s
          (if s.isLooping then Pipeline.run E s s.cnv.pixels else s.cnv.pixels)) ∧
      (∀ F, s.mouseIsPressed = false → cursorFrame s F = F) ∧
      (s.isLooping = true → s.mouseIsPressed = false →
        (draw E s).cnv.pixels = borderFrame s (Pipeline.run E s s.cnv.pixels)) ∧
      Ready (draw E s)) := by
  refine ⟨rfl, congrArg Core.isLooping (draw_core E s), draw_pipelineRuns E s, fun h => ?_⟩
  refine ⟨draw_pixels E s h, fun F hp => cursorFrame_of_released s hp F, fun hl hp => ?_,
    Ready_draw E s h⟩
  rw [draw_pixels E s h, cursorFrame_of_released s hp]
  simp [hl]

/-- Worked instance of C1 on the sample state, which is running with no pointer
press. -/
theorem draw_is_border_cursor_pipeline_witness :
    Ready sampleState ∧ sampleState.isLooping = true ∧ sampleState.mouseIsPressed = false ∧
      (draw sampleExternal sampleState).cnv.pixels =
        borderFrame sampleState (Pipeline.run sampleExternal sampleState sampleState.cnv.pixels) :=
  ⟨sampleState_ready, rfl, rfl,
    ((draw_is_border_cursor_pipeline sampleExternal sampleState).2.2.2 sampleState_ready).2.2.1
      rfl rfl⟩

/-- C4: `ReactionDiffusion(F)` leaves in `gfx`, and commits to the canvas when no
translation is pending, exactly `sharpen(blur(F, spread), radius, amount)`: the
blur pass with direction `(1, 0)` on `F`, the blur pass with direction `(0, 1)`
on that result, then the unsharp pass on the blurred result, with
`controls.blurSpread`, `controls.unsharpRadius`, `controls.unsharpAmount` and
texel size `(1 / WIDTH, 1 / HEIGHT)`; it counts as one pipeline run. -/
theorem ReactionDiffusion_is_sharpen_blur (E : External) (F : Frame) (s : State) :
    (ReactionDiffusion E F s).gfx.pixels =
      sharpen E (1 / WIDTH s, 1 / HEIGHT s)
        (blur E (1 / WIDTH s, 1 / HEIGHT s) F s.controls.blurSpread)
        s.controls.unsharpRadius s.controls.unsharpAmount ∧
    sharpen E (1 / WIDTH s, 1 / HEIGHT s)
        (blur E (1 / WIDTH s, 1 / HEIGHT s) F s.controls.blurSpread)
        s.controls.unsharpRadius s.controls.unsharpAmount =
      E.UNSHARP s.controls.unsharpRadius s.controls.unsharpAmount (1 / WIDTH s, 1 / HEIGHT s)
        (E.BLUR s.controls.blurSpread (1 / WIDTH s, 1 / HEIGHT s) (0, 1)
          (E.BLUR s.controls.blurSpread (1 / WIDTH s, 1 / HEIGHT s) (1, 0) F)) ∧
    (ReactionDiffusion E F s).pipelineRuns = s.pipelineRuns + 1 ∧
    (s.cnv.style.tx = 0 → s.cnv.style.ty = 0 →
      (ReactionDiffusion E F s).cnv.pixels =
        sharpen E (1 / WIDTH s, 1 / HEIGHT s)
          (blur E (1 / WIDTH s, 1 / HEIGHT s) F s.controls.blurSpread)
          s.controls.unsharpRadius s.controls.unsharpAmount) := by
  refine ⟨?_, rfl, ?_, fun hx hy => ?_⟩
  · rw [ReactionDiffusion_gfx, TEXEL_SIZE_eq]; rfl
  · rw [ReactionDiffusion_frozen]
  · rw [ReactionDiffusion_cnv E F s hx hy]; rfl

/-- Worked instance of C4 on the sample state. -/
theorem ReactionDiffusion_is_sharpen_blur_witness :
    sampleState.cnv.style.tx = 0 ∧ sampleState.cnv.style.ty = 0 ∧
      (ReactionDiffusion sampleExternal (fun _ _ => gray 0) sampleState).cnv.pixels =
        sharpen sampleExternal (1 / WIDTH sampleState, 1 / HEIGHT sampleState)
          (blur sampleExternal (1 / WIDTH sampleState, 1 / HEIGHT sampleState)
            (fun _ _ => gray 0) sampleState.controls.blurSpread)
          sampleState.controls.unsharpRadius sampleState.controls.unsharpAmount :=
  ⟨rfl, rfl,
    (ReactionDiffusion_is_sharpen_blur sampleExternal (fun _ _ => gray 0) sampleState).2.2.2
      rfl rfl⟩

/-- C6: `pauseSimulation` is idempotent; on a paused state it returns the state
unchanged, status text and display-update count included; after it the state is
paused. -/
theorem pauseSimulation_idempotent (s : State) :
    pauseSimulation (pauseSimulation s) = pauseSimulation s ∧
    (s.isLooping = false →
      pauseSimulation s = s ∧
      (pauseSimulation s).controls.simulationStatus = s.controls.simulationStatus ∧
      (pauseSimulation s).statusDisplayUpdates = s.statusDisplayUpdates) ∧
    (pauseSimulation s).isLooping = false := by
  refine ⟨pauseSimulation_of_paused _ (pauseSimulation_isLooping s), fun h => ?_,
    pauseSimulation_isLooping s⟩
  rw [pauseSimulation_of_paused s h]
  exact ⟨rfl, rfl, rfl⟩

/-- Worked instance of C6: pausing the already paused sample state a second time. -/
theorem pauseSimulation_idempotent_witness :
    (pauseSimulation sampleState).isLooping = false ∧
      pauseSimulation (pauseSimulation sampleState) = pauseSimulation sampleState :=
  ⟨pauseSimulation_isLooping sampleState,
    ((pauseSimulation_idempotent (pauseSimulation sampleState)).2.1
      (pauseSimulation_isLooping sampleState)).1⟩

/-! ### Keyboard -/

theorem keyPressed_eq (E : External) (key : String) (s : State) :
    keyPressed E key s =
      if s.activeElementIsText then s
      else digitBranch E key (sBranch key (tBranch E key (rBranch key (cBranch key
        (bBranch key (spaceBranch key s)))))) := rfl

theorem parseInt_digitKey (d : ℕ) (h : d ≤ 9) : parseInt (digitKey d) = some (d : ℤ) := by
  interval_cases d <;> decide

theorem digitKey_ne (d : ℕ) (h : d ≤ 9) :
    digitKey d ≠ " " ∧ digitKey d ≠ "b" ∧ digitKey d ≠ "c" ∧ digitKey d ≠ "r" ∧
      digitKey d ≠ "t" ∧ digitKey d ≠ "s" := by
  interval_cases d <;> decide

theorem parseInt_letters :
    parseInt " " = none ∧ parseInt "b" = none ∧ parseInt "c" = none ∧ parseInt "r" = none ∧
      parseInt "t" = none ∧ parseInt "s" = none := by
  decide

/-! ### The digit loop -/

theorem processFrames_succ (E : External) (n : ℕ) (s : State) :
    processFrames E (n + 1) s = processFrames E n (tick E s) := rfl

theorem processFrames_eq_iterate (E : External) (n : ℕ) (s : State) :
    processFrames E n s = (tick E)^[n] s := by
  induction n generalizing s with
  | zero => rfl
  | succ n ih => rw [processFrames_succ, ih, Function.iterate_succ_apply]

theorem processFrames_core (E : External) (n : ℕ) (s : State) :
    (processFrames E n s).core = s.core := by
  induction n generalizing s with
  | zero => rfl
  | succ n ih => rw [processFrames_succ, ih, tick_core]

theorem Ready_processFrames (E : External) (n : ℕ) (s : State) (h : Ready s) :
    Ready (processFrames E n s) := by
  induction n generalizing s with
  | zero => exact h
  | succ n ih => rw [processFrames_succ]; exact ih _ (Ready_tick E s h)

theorem processFrames_pipelineRuns (E : External) (n : ℕ) (s : State) :
    (processFrames E n s).pipelineRuns = s.pipelineRuns + n := by
  induction n generalizing s with
  | zero => rfl
  | succ n ih => rw [processFrames_succ, ih, tick_pipelineRuns]; omega

theorem tickFrame_congr (E : External) (s t : State) (h : s.core = t.core) :
    tickFrame E s = tickFrame E t := by
  have h1 : s.savedResolution = t.savedResolution := congrArg Core.savedResolution h
  have h2 : s.controls = t.controls := congrArg Core.controls h
  have h3 : s.mouseIsPressed = t.mouseIsPressed := congrArg Core.mouseIsPressed h
  have h4 : s.mouseX = t.mouseX := congrArg Core.mouseX h
  have h5 : s.mouseY = t.mouseY := congrArg Core.mouseY h
  have h6 : s.CURSOR_COLOR = t.CURSOR_COLOR := congrArg Core.CURSOR_COLOR h
  funext F
  simp only [tickFrame, borderFrame, cursorFrame, Pipeline.run, WIDTH, HEIGHT, MIN_SIDE,
    h1, h2, h3, h4, h5, h6]

theorem processFrames_cnv (E : External) (n : ℕ) (s : State) (h : Ready s) :
    (processFrames E n s).cnv = { s.cnv with pixels := (tickFrame E s)^[n] s.cnv.pixels } := by
  induction n generalizing s with
  | zero => rfl
  | succ n ih =>
    rw [processFrames_succ, ih _ (Ready_tick E s h), tick_cnv E s h,
      tickFrame_congr E (tick E s) s (tick_core E s), Function.iterate_succ_apply]

theorem tick_setLooping (E : External) (s : State) (b : Bool) :
    tick E { s with isLooping := b } = { tick E s with isLooping := b } := rfl

theorem iterate_draw_running (E : External) (n : ℕ) (s : State) :
    (draw E)^[n] { s with isLooping := true } =
      { processFrames E n s with isLooping := true } := by
  induction n generalizing s with
  | zero => rfl
  | succ n ih =>
    rw [Function.iterate_succ_apply, draw_of_looping E _ rfl, tick_setLooping, ih,
      processFrames_succ]

theorem digitBranch_digitKey (E : External) (d : ℕ) (hd : d ≤ 9) (s : State) :
    digitBranch E (digitKey d) s =
      if s.isLooping then s else processFrames E (framesFor d) s := by
  unfold digitBranch
  rw [parseInt_digitKey d hd]
  have h9 : (0 : ℤ) ≤ (d : ℤ) ∧ (d : ℤ) ≤ 9 := ⟨by positivity, by exact_mod_cast hd⟩
  have hn : (if (d : ℤ) = 0 then (10 : ℤ) else (d : ℤ)).toNat = framesFor d := by
    unfold framesFor
    by_cases h0 : d = 0
    · simp [h0]
    · have : (d : ℤ) ≠ 0 := by exact_mod_cast h0
      simp [h0, this]
  have hn2 : (if d = 0 then (10 : ℤ) else (d : ℤ)).toNat = framesFor d := by
    unfold framesFor
    by_cases h0 : d = 0 <;> simp [h0]
  cases hl : s.isLooping <;> simp [h9, hn, hn2]

theorem keyPressed_digitKey (E : External) (d : ℕ) (hd : d ≤ 9) (s : State)
    (hf : s.activeElementIsText = false) :
    keyPressed E (digitKey d) s =
      if s.isLooping then s else processFrames E (framesFor d) s := by
  obtain ⟨h1, h2, h3, h4, h5, h6⟩ := digitKey_ne d hd
  rw [keyPressed_eq]
  simp only [hf, spaceBranch, bBranch, cBranch, rBranch, tBranch, sBranch, h1, h2, h3, h4, h5,
    h6, if_false, Bool.false_eq_true]
  exact digitBranch_digitKey E d hd s

theorem keyPressed_of_text_focus (E : External) (key : String) (s : State)
    (hf : s.activeElementIsText = true) : keyPressed E key s = s := by
  rw [keyPressed_eq]; simp [hf]

theorem textFocusedState_ready : Ready textFocusedState :=
  Ready_of_cnv sampleState _ sampleState_ready rfl ⟨_, rfl⟩

theorem sample_tickFrame_centre (F : Frame) :
    tickFrame sampleExternal textFocusedState F 150 150 = gray (255 - (F 150 150).r) := by
  have hW : WIDTH textFocusedState = 300 := by
    simp [WIDTH, textFocusedState, pauseSimulation, sampleState, initial, savedResolution,
      updateStatusDisplay]
  have hH : HEIGHT textFocusedState = 300 := hW
  have hp : textFocusedState.mouseIsPressed = false := rfl
  simp only [tickFrame, borderFrame, paint, onOutline, cursorFrame_of_released _ hp,
    Pipeline.run, sharpen, blur, sampleExternal, MIN_SIDE, hW, hH]
  norm_num [abs_of_nonneg, abs_of_nonpos]

/-- C2, as stated, fails: with the text field focused and the simulation paused,
the key `5` leaves the state as it is, so the pipeline has not run five times
and the centre pixel differs from the one five running ticks produce. -/
theorem digit_key_in_text_field_counterexample :
    textFocusedState.isLooping = false ∧
    keyPressed sampleExternal (digitKey 5) textFocusedState = textFocusedState ∧
    (keyPressed sampleExternal (digitKey 5) textFocusedState).pipelineRuns ≠
      textFocusedState.pipelineRuns + framesFor 5 ∧
    (keyPressed sampleExternal (digitKey 5) textFocusedState).cnv.pixels 150 150 ≠
      ((draw sampleExternal)^[framesFor 5]
        { textFocusedState with isLooping := true }).cnv.pixels 150 150 := by
  have hk := keyPressed_of_text_focus sampleExternal (digitKey 5) textFocusedState rfl
  refine ⟨rfl, hk, ?_, ?_⟩
  · rw [hk]; decide
  · rw [hk, iterate_draw_running]
    have h5 : ({ processFrames sampleExternal (framesFor 5) textFocusedState with
        isLooping := true } : State).cnv
        = (processFrames sampleExternal (framesFor 5) textFocusedState).cnv := rfl
    rw [h5, processFrames_cnv _ _ _ textFocusedState_ready]
    have hf : framesFor 5 = 5 := rfl
    simp only [hf, Function.iterate_succ_apply', Function.iterate_zero, id,
      sample_tickFrame_centre]
    decide

/-- C2, amended: with no text field focused, a digit key `d` pressed while paused
runs the tick-equivalent `Border ∘ Cursor ∘ ReactionDiffusion` exactly `n` times in
the one handler call, `n = 10` for `0` and `n = d` otherwise; the canvas is the
one `n` running ticks produce, the state stays paused and the pipeline has run
`n` more times.  Pressed while running, the key changes nothing. -/
theorem digit_key_steps (E : External) (d : ℕ) (hd : d ≤ 9) (s : State)
    (hf : s.activeElementIsText = false) :
    (s.isLooping = false →
      keyPressed E (digitKey d) s = (tick E)^[framesFor d] s ∧
      (keyPressed E (digitKey d) s).cnv =
        ((draw E)^[framesFor d] { s with isLooping := true }).cnv ∧
      (keyPressed E (digitKey d) s).isLooping = false ∧
      (keyPressed E (digitKey d) s).pipelineRuns = s.pipelineRuns + framesFor d ∧
      (Ready s →
        (keyPressed E (digitKey d) s).cnv.pixels = (tickFrame E s)^[framesFor d] s.cnv.pixels)) ∧
    (s.isLooping = true → keyPressed E (digitKey d) s = s) ∧
    framesFor 0 = 10 ∧ (d ≠ 0 → framesFor d = d) := by
  have hk := keyPressed_digitKey E d hd s hf
  refine ⟨fun hl => ?_, fun hl => ?_, rfl, fun h0 => by simp [framesFor, h0]⟩
  · have hk2 : keyPressed E (digitKey d) s = processFrames E (framesFor d) s := by
      rw [hk]; simp [hl]
    refine ⟨by rw [hk2, processFrames_eq_iterate], ?_, ?_, ?_, fun hr => ?_⟩
    · rw [hk2, iterate_draw_running]
    · rw [hk2]
      exact (congrArg Core.isLooping (processFrames_core E _ s)).trans hl
    · rw [hk2, processFrames_pipelineRuns]
    · rw [hk2, processFrames_cnv E _ s hr]
  · rw [hk]; simp [hl]

/-- Worked instance of the amended C2: the key `0` on the paused sample state. -/
theorem digit_key_steps_witness :
    (0 : ℕ) ≤ 9 ∧ (pauseSimulation sampleState).activeElementIsText = false ∧
      (pauseSimulation sampleState).isLooping = false ∧
      (keyPressed sampleExternal (digitKey 0) (pauseSimulation sampleState)).pipelineRuns =
        (pauseSimulation sampleState).pipelineRuns + framesFor 0 :=
  ⟨by decide, rfl, rfl,
    ((digit_key_steps sampleExternal 0 (by decide) (pauseSimulation sampleState) rfl).1
      rfl).2.2.2.1⟩

/-! ### Random points -/

theorem randomUnit_nonneg (e : ℕ × ℕ) : 0 ≤ randomUnit e := by
  unfold randomUnit; positivity

theorem randomUnit_lt_one (e : ℕ × ℕ) : randomUnit e < 1 := by
  unfold randomUnit
  have hpos : (0 : ℚ) < ((e.2 + 1 : ℕ) : ℚ) := by exact_mod_cast Nat.succ_pos e.2
  rw [div_lt_one hpos]
  exact_mod_cast Nat.mod_lt e.1 (Nat.succ_pos e.2)

theorem randomCentres_length (stream : ℕ → ℕ × ℕ) (W H : ℚ) (k n : ℕ) :
    (randomCentres stream W H k n).length = n := by
  induction n generalizing k with
  | zero => rfl
  | succ n ih => simp [randomCentres, ih]

theorem randomCentres_bounds (stream : ℕ → ℕ × ℕ) (W H : ℚ) (hW : 0 < W) (hH : 0 < H)
    (k n : ℕ) :
    ∀ p ∈ randomCentres stream W H k n, 0 ≤ p.1 ∧ p.1 < W ∧ 0 ≤ p.2 ∧ p.2 < H := by
  induction n generalizing k with
  | zero => intro p hp; simp [randomCentres] at hp
  | succ n ih =>
    intro p hp
    simp only [randomCentres, List.mem_cons] at hp
    rcases hp with rfl | hp
    · refine ⟨mul_nonneg (randomUnit_nonneg _) hW.le, ?_, mul_nonneg (randomUnit_nonneg _) hH.le,
        ?_⟩
      · calc randomUnit (stream k) * W < 1 * W :=
            mul_lt_mul_of_pos_right (randomUnit_lt_one _) hW
          _ = W := one_mul W
      · calc randomUnit (stream (k + 1)) * H < 1 * H :=
            mul_lt_mul_of_pos_right (randomUnit_lt_one _) hH
          _ = H := one_mul H
    · exact ih _ p hp

theorem discCover_translated (c : Canvas) (W H : ℚ) (h1 : c.w = W) (h2 : c.h = H)
    (h3 : c.style.tx = -W / 2) (h4 : c.style.ty = -H / 2) (x y d : ℚ) :
    c.discCover x y d = inDisc x y d := by
  funext i j
  simp only [Canvas.discCover, inDisc, Canvas.centreX, Canvas.centreY, h1, h2, h3, h4]
  congr 2
  ring

theorem randomPoints_succ (n : ℕ) (s : State) :
    randomPoints (n + 1) s =
      randomPoints n
        { s with
          randomCalls := s.randomCalls + 1 + 1
          cnv := s.cnv.circle (randomUnit (s.randomStream s.randomCalls) * WIDTH s)
            (randomUnit (s.randomStream (s.randomCalls + 1)) * HEIGHT s)
            s.controls.randomPointSize } := rfl

theorem randomPoints_eq (col : Color) (n : ℕ) (s : State)
    (hfill : s.cnv.style.fill = some col) (hstroke : s.cnv.style.stroke = none)
    (hw : s.cnv.w = WIDTH s) (hh : s.cnv.h = HEIGHT s)
    (hx : s.cnv.style.tx = -(WIDTH s) / 2) (hy : s.cnv.style.ty = -(HEIGHT s) / 2) :
    randomPoints n s =
      { s with
        randomCalls := s.randomCalls + 2 * n
        cnv := { s.cnv with
          pixels := stampDiscs col s.controls.randomPointSize
            (randomCentres s.randomStream (WIDTH s) (HEIGHT s) s.randomCalls n) s.cnv.pixels } } := by
  induction n generalizing s with
  | zero => rfl
  | succ n ih =>
    have hc : s.cnv.circle (randomUnit (s.randomStream s.randomCalls) * WIDTH s)
        (randomUnit (s.randomStream (s.randomCalls + 1)) * HEIGHT s) s.controls.randomPointSize
        = { s.cnv with pixels := paint (inDisc (randomUnit (s.randomStream s.randomCalls) * WIDTH s)
            (randomUnit (s.randomStream (s.randomCalls + 1)) * HEIGHT s)
            s.controls.randomPointSize) col s.cnv.pixels } := by
      simp only [Canvas.circle, hfill, hstroke, discCover_translated s.cnv _ _ hw hh hx hy]
    have key := ih
      { s with
        randomCalls := s.randomCalls + 1 + 1
        cnv := { s.cnv with pixels := paint (inDisc (randomUnit (s.randomStream s.randomCalls) * WIDTH s)
            (randomUnit (s.randomStream (s.randomCalls + 1)) * HEIGHT s)
            s.controls.randomPointSize) col s.cnv.pixels } }
      hfill hstroke hw hh hx hy
    rw [randomPoints_succ, hc, key]
    simp only [WIDTH, HEIGHT, randomCentres, stampDiscs, List.foldl_cons]
    congr 1
    omega

theorem pauseSimulation_frozen (s : State) :
    pauseSimulation s =
      { s with
        isLooping := false
        controls := { s.controls with
          simulationStatus := (pauseSimulation s).controls.simulationStatus }
        statusDisplayController := (pauseSimulation s).statusDisplayController
        statusDisplayUpdates := (pauseSimulation s).statusDisplayUpdates } := by
  cases hl : s.isLooping
  · rw [pauseSimulation_of_paused s hl]
    cases s
    simp_all
  · unfold pauseSimulation updateStatusDisplay
    simp only [hl, if_true]
    cases hd : s.statusDisplayController <;> simp [hd]

theorem Ready_pauseSimulation (s : State) (h : Ready s) : Ready (pauseSimulation s) := by
  refine Ready_of_cnv s _ h ?_ ⟨s.cnv.pixels, ?_⟩ <;> rw [pauseSimulation_frozen]

theorem rBranch_r (s : State)
    (h : Ready s) :
    rBranch "r" s =
      { s with
        randomCalls := s.randomCalls + 2 * s.controls.randomPointCount
        cnv := { s.cnv with
          pixels := stampDiscs (gray 0) s.controls.randomPointSize
            (randomCentres s.randomStream (WIDTH s) (HEIGHT s) s.randomCalls
              s.controls.randomPointCount) s.cnv.pixels }
        isLooping := false
        controls := { s.controls with
          simulationStatus := (pauseSimulation s).controls.simulationStatus }
        statusDisplayController := (pauseSimulation s).statusDisplayController
        statusDisplayUpdates := (pauseSimulation s).statusDisplayUpdates } := by
  obtain ⟨_, hw, hh, hst⟩ := Ready_pauseSimulation s h
  have e := randomPoints_eq (gray 0) (pauseSimulation s).controls.randomPointCount
    { pauseSimulation s with
      cnv := ((((pauseSimulation s).cnv.push.translate (-(WIDTH (pauseSimulation s)) / 2)
        (-(HEIGHT (pauseSimulation s)) / 2)).fill 0).noStroke) }
    rfl rfl hw hh
    (by simp [Canvas.push, Canvas.translate, Canvas.fill, Canvas.noStroke, hst, Style.rest,
      WIDTH])
    (by simp [Canvas.push, Canvas.translate, Canvas.fill, Canvas.noStroke, hst, Style.rest,
      HEIGHT])
  have e2 : rBranch "r" s =
      { (randomPoints (pauseSimulation s).controls.randomPointCount
        { pauseSimulation s with
          cnv := ((((pauseSimulation s).cnv.push.translate (-(WIDTH (pauseSimulation s)) / 2)
            (-(HEIGHT (pauseSimulation s)) / 2)).fill 0).noStroke) }) with
        cnv := (randomPoints (pauseSimulation s).controls.randomPointCount
        { pauseSimulation s with
          cnv := ((((pauseSimulation s).cnv.push.translate (-(WIDTH (pauseSimulation s)) / 2)
            (-(HEIGHT (pauseSimulation s)) / 2)).fill 0).noStroke) }).cnv.pop } := by
    simp [rBranch]
  rw [e2, e]
  generalize hp : pauseSimulation s = p at *
  have hfr := pauseSimulation_frozen s
  rw [hp] at hfr
  rw [hfr]
  rfl

theorem keyPressed_r (E : External) (s : State) (hf : s.activeElementIsText = false) :
    keyPressed E "r" s = rBranch "r" s := by
  rw [keyPressed_eq]
  simp [hf, spaceBranch, bBranch, cBranch, tBranch, sBranch, digitBranch, parseInt_letters.2.2.2.1]

theorem randomPoints_core (n : ℕ) (s : State) :
    (randomPoints n s).core = s.core ∧ (randomPoints n s).pipelineRuns = s.pipelineRuns := by
  induction n generalizing s with
  | zero => exact ⟨rfl, rfl⟩
  | succ n ih => rw [randomPoints_succ]; exact ih _

theorem rBranch_r_core (s : State) :
    (rBranch "r" s).core = (pauseSimulation s).core ∧
      (rBranch "r" s).pipelineRuns = s.pipelineRuns := by
  have e := randomPoints_core (pauseSimulation s).controls.randomPointCount
    { pauseSimulation s with
      cnv := ((((pauseSimulation s).cnv.push.translate (-(WIDTH (pauseSimulation s)) / 2)
        (-(HEIGHT (pauseSimulation s)) / 2)).fill 0).noStroke) }
  have hp : (pauseSimulation s).pipelineRuns = s.pipelineRuns := by
    rw [pauseSimulation_frozen]
  refine ⟨?_, ?_⟩
  · simp only [rBranch, if_true]
    exact e.1
  · simp only [rBranch, if_true]
    exact e.2.trans hp

theorem stampDiscs_of_eq (c : Color) (d : ℚ) (centres : List (ℚ × ℚ)) (F : Frame) (i j : ℤ)
    (h : F i j = c) : stampDiscs c d centres F i j = c := by
  induction centres generalizing F with
  | nil => exact h
  | cons p ps ih =>
    simp only [stampDiscs, List.foldl_cons]
    apply ih
    simp only [paint]
    split
    · rfl
    · exact h

theorem stampDiscs_covered (c : Color) (d : ℚ) (centres : List (ℚ × ℚ)) (F : Frame) (i j : ℤ)
    (h : ∃ p ∈ centres, inDisc p.1 p.2 d i j = true) : stampDiscs c d centres F i j = c := by
  induction centres generalizing F with
  | nil => obtain ⟨p, hp, _⟩ := h; simp at hp
  | cons q qs ih =>
    obtain ⟨p, hp, hc⟩ := h
    simp only [stampDiscs, List.foldl_cons]
    rcases List.mem_cons.mp hp with rfl | hp
    · exact stampDiscs_of_eq c d qs _ i j (by simp [paint, hc])
    · exact ih _ ⟨p, hp, hc⟩

/-- C7, as stated, fails: with the text field focused, the key `r` on the running
sample state (50 points requested) returns at once; the state stays running and
the canvas keeps its white pixel `(90, 0)`, which the first of the 50 discs
would have made black. -/
theorem r_key_in_text_field_counterexample :
    typingState.controls.randomPointCount = 50 ∧
    keyPressed sampleExternal "r" typingState = typingState ∧
    (keyPressed sampleExternal "r" typingState).isLooping = true ∧
    (keyPressed sampleExternal "r" typingState).cnv.pixels 90 0 ≠
      stampDiscs (gray 0) typingState.controls.randomPointSize
        (randomCentres typingState.randomStream (WIDTH typingState) (HEIGHT typingState)
          typingState.randomCalls 50) typingState.cnv.pixels 90 0 := by
  have hk := keyPressed_of_text_focus sampleExternal "r" typingState rfl
  refine ⟨rfl, hk, by rw [hk]; rfl, ?_⟩
  have hW : WIDTH typingState = 300 := by
    simp [WIDTH, typingState, sampleState, initial, savedResolution]
  have hH : HEIGHT typingState = 300 := hW
  have h1 : randomUnit (typingState.randomStream typingState.randomCalls) = 3 / 10 := by
    simp [randomUnit, typingState, sampleState, initial]
  have h2 : randomUnit (typingState.randomStream (typingState.randomCalls + 1)) = 0 := by
    simp [randomUnit, typingState, sampleState, initial]
  have h3 : typingState.controls.randomPointSize = 50 := rfl
  have hmem : (randomUnit (typingState.randomStream typingState.randomCalls) * WIDTH typingState,
      randomUnit (typingState.randomStream (typingState.randomCalls + 1)) * HEIGHT typingState)
      ∈ randomCentres typingState.randomStream (WIDTH typingState) (HEIGHT typingState)
          typingState.randomCalls 50 := by
    rw [show (50 : ℕ) = 49 + 1 from rfl, randomCentres]
    exact List.mem_cons_self _ _
  have hcov : inDisc
      (randomUnit (typingState.randomStream typingState.randomCalls) * WIDTH typingState)
      (randomUnit (typingState.randomStream (typingState.randomCalls + 1)) * HEIGHT typingState)
      typingState.controls.randomPointSize 90 0 = true := by
    simp only [inDisc, hW, hH, h1, h2, h3]
    norm_num
  rw [hk, stampDiscs_covered (gray 0) _ _ _ 90 0 ⟨_, hmem, hcov⟩]
  decide

/-- C7, amended: with no text field focused, the key `r` leaves the state
paused and runs no pipeline pass; on a canvas in its rest drawing state the
result is the paused state `pauseSimulation s` with `2 * n` more random numbers
drawn and `n = randomPointCount` filled black discs of diameter `randomPointSize`
stamped in order, each centred at some `(x, y)` with `0 ≤ x < WIDTH` and
`0 ≤ y < HEIGHT` in canvas coordinates. -/
theorem r_key_seeds_points (E : External) (s : State) (hf : s.activeElementIsText = false) :
    (keyPressed E "r" s).isLooping = false ∧
    (keyPressed E "r" s).pipelineRuns = s.pipelineRuns ∧
    (Ready s →
      keyPressed E "r" s =
        { pauseSimulation s with
          randomCalls := s.randomCalls + 2 * s.controls.randomPointCount
          cnv := { s.cnv with
            pixels := stampDiscs (⟨0, 0, 0, 255⟩ : Color) s.controls.randomPointSize
              (randomCentres s.randomStream (WIDTH s) (HEIGHT s) s.randomCalls
                s.controls.randomPointCount) s.cnv.pixels } } ∧
      (randomCentres s.randomStream (WIDTH s) (HEIGHT s) s.randomCalls
        s.controls.randomPointCount).length = s.controls.randomPointCount ∧
      ∀ p ∈ randomCentres s.randomStream (WIDTH s) (HEIGHT s) s.randomCalls
          s.controls.randomPointCount,
        0 ≤ p.1 ∧ p.1 < WIDTH s ∧ 0 ≤ p.2 ∧ p.2 < HEIGHT s) := by
  have hk := keyPressed_r E s hf
  refine ⟨?_, ?_, fun hr => ⟨?_, randomCentres_length _ _ _ _ _, ?_⟩⟩
  · rw [hk]
    exact (congrArg Core.isLooping (rBranch_r_core s).1).trans (pauseSimulation_isLooping s)
  · rw [hk]; exact (rBranch_r_core s).2
  · rw [hk, rBranch_r s hr]
    conv_rhs => rw [pauseSimulation_frozen]
    rfl
  · have hW : (0 : ℚ) < WIDTH s := by
      simp only [WIDTH]; exact_mod_cast hr.1
    exact randomCentres_bounds _ _ _ hW hW _ _

/-- Worked instance of the amended C7 on the sample state: 50 centres. -/
theorem r_key_seeds_points_witness :
    sampleState.activeElementIsText = false ∧ Ready sampleState ∧
      (randomCentres sampleState.randomStream (WIDTH sampleState) (HEIGHT sampleState)
        sampleState.randomCalls sampleState.controls.randomPointCount).length = 50 :=
  ⟨rfl, sampleState_ready,
    ((r_key_seeds_points sampleExternal sampleState rfl).2.2 sampleState_ready).2.1⟩

/-! ### The invariant of a session -/

theorem savedResolution_pos (item : Option ℕ) : 0 < savedResolution item := by
  unfold savedResolution
  cases item with
  | none => decide
  | some n =>
    by_cases h : n = 0
    · simp [h]
    · simp [h]; omega

theorem Inv_of_core (s t : State) (h : Inv s) (hc : t.core = s.core)
    (hp : ∃ F, t.cnv = { s.cnv with pixels := F }) : Inv t :=
  ⟨hc ▸ h.1, Ready_of_cnv s t h.2 (congrArg Core.savedResolution hc) hp⟩

theorem Inv_draw (E : External) (s : State) (h : Inv s) : Inv (draw E s) :=
  ⟨(draw_core E s).symm ▸ h.1, Ready_draw E s h.2⟩

theorem Inv_start (E : External) (item : Option ℕ) (stream : ℕ → ℕ × ℕ) :
    Inv (start E item stream) := by
  unfold start setup
  refine Inv_draw E _ (Inv_draw E _ (Inv_draw E _ ⟨?_, ?_⟩))
  · refine ⟨rfl, rfl, Or.inl rfl, rfl, rfl, rfl, rfl, rfl, Or.inl rfl, rfl, rfl, ?_⟩
    show '\n' ∉ "模様".data
    decide
  · refine ⟨savedResolution_pos item, rfl, rfl, rfl⟩

theorem start_core (E : External) (item : Option ℕ) (stream : ℕ → ℕ × ℕ) :
    (start E item stream).isLooping = true ∧
    (start E item stream).controls.simulationStatus = "Running" ∧
    (start E item stream).TEXT_FILL_COLOR = 255 ∧
    (start E item stream).TEXT_STROKE_COLOR = 0 ∧
    (start E item stream).CURSOR_COLOR = 255 ∧
    (start E item stream).activeElementIsText = false := by
  have h : (start E item stream).core = _ :=
    (draw_core E _).trans ((draw_core E _).trans (draw_core E _))
  exact ⟨congrArg Core.isLooping h, congrArg (fun c => c.controls.simulationStatus) h,
    congrArg Core.TEXT_FILL_COLOR h, congrArg Core.TEXT_STROKE_COLOR h,
    congrArg Core.CURSOR_COLOR h, congrArg Core.activeElementIsText h⟩

theorem Inv_pauseSimulation (s : State) (h : Inv s) : Inv (pauseSimulation s) := by
  refine ⟨?_, Ready_pauseSimulation s h.2⟩
  cases hl : s.isLooping
  · rw [pauseSimulation_of_paused s hl]; exact h.1
  · obtain ⟨⟨h1, h2, h3⟩, _⟩ := h
    have h2' : s.statusDisplayController = some s.controls.simulationStatus := h2
    unfold pauseSimulation updateStatusDisplay
    simp only [hl, if_true, h2']
    exact ⟨rfl, rfl, h3⟩

theorem Inv_updateCursorColor (s : State) (h : Inv s) : Inv (updateCursorColor s) := by
  obtain ⟨⟨h1, h2, h3, h4, h5, h6, h7, h8, h9, h10, h11, h12⟩, hr⟩ := h
  refine ⟨⟨h1, h2, h3, h4, h5, h6, h7, h8, ?_, rfl, ?_, h12⟩, Ready_of_cnv s _ hr rfl ⟨_, rfl⟩⟩
  · have h9' : s.CURSOR_COLOR = 255 ∨ s.CURSOR_COLOR = 0 := h9
    show 255 - s.CURSOR_COLOR = 255 ∨ 255 - s.CURSOR_COLOR = 0
    omega
  · have h11' : s.cursorColorDisplayController = some s.controls.currentCursorColor := h11
    simp [State.core, updateCursorColor, h11']

theorem Inv_updateTextColors (s : State) (h : Inv s) : Inv (updateTextColors s) := by
  obtain ⟨⟨h1, h2, h3, h4, h5, h6, h7, h8, h9, h10, h11⟩, hr⟩ := h
  refine ⟨⟨h1, h2, ?_, rfl, rfl, rfl, ?_, ?_, h9, h10, h11⟩,
    Ready_of_cnv s _ hr rfl ⟨_, rfl⟩⟩
  · have h3' : s.TEXT_FILL_COLOR = 255 ∨ s.TEXT_FILL_COLOR = 0 := h3
    show 255 - s.TEXT_FILL_COLOR = 255 ∨ 255 - s.TEXT_FILL_COLOR = 0
    omega
  · have h7' : s.textFillColorDisplayController = some s.controls.currentTextFillColor := h7
    simp [State.core, updateTextColors, h7']
  · have h8' : s.textStrokeColorDisplayController = some s.controls.currentTextStrokeColor := h8
    simp [State.core, updateTextColors, h8']

theorem Inv_updateFont (s : State) (h : Inv s) : Inv (updateFont s) :=
  ⟨h.1, Ready_of_cnv s _ h.2 rfl ⟨_, rfl⟩⟩

theorem Inv_performActionAndBlur (action : State → State) (s : State) (h : Inv (action s)) :
    Inv (performActionAndBlur action s) :=
  ⟨h.1, Ready_of_cnv (action s) _ h.2 rfl ⟨_, rfl⟩⟩

theorem submitText_cnv (E : External) (s : State) :
    ∃ F, (submitText E s).cnv = { s.cnv with pixels := F } :=
  ⟨_, rfl⟩

theorem Inv_submitText (E : External) (s : State) (h : Inv s) : Inv (submitText E s) :=
  ⟨h.1, Ready_of_cnv s _ h.2 rfl (submitText_cnv E s)⟩

theorem Inv_spaceBranch (key : String) (s : State) (h : Inv s) : Inv (spaceBranch key s) := by
  unfold spaceBranch
  by_cases hk : key = " "
  · obtain ⟨⟨h1, h2, h3⟩, hr⟩ := h
    have h2' : s.statusDisplayController = some s.controls.simulationStatus := h2
    simp only [hk, if_true, updateStatusDisplay, h2']
    exact ⟨⟨rfl, rfl, h3⟩, Ready_of_cnv s _ hr rfl ⟨_, rfl⟩⟩
  · simp only [hk, if_false]; exact h

theorem Inv_bBranch (key : String) (s : State) (h : Inv s) : Inv (bBranch key s) := by
  unfold bBranch
  split
  · exact Inv_updateCursorColor s h
  · exact h

theorem Inv_cBranch (key : String) (s : State) (h : Inv s) : Inv (cBranch key s) := by
  unfold cBranch
  split
  · exact ⟨h.1, Ready_of_cnv s _ h.2 rfl ⟨_, rfl⟩⟩
  · exact h

theorem Inv_rBranch (key : String) (s : State) (h : Inv s) : Inv (rBranch key s) := by
  by_cases hk : key = "r"
  · subst hk
    have hp := Inv_pauseSimulation s h
    refine ⟨(rBranch_r_core s).1 ▸ hp.1,
      Ready_of_cnv s _ h.2 ?_ ⟨(rBranch "r" s).cnv.pixels, ?_⟩⟩
    · rw [rBranch_r s h.2]
    · rw [rBranch_r s h.2]
  · simp only [rBranch, hk, if_false]; exact h

theorem Inv_tBranch (E : External) (key : String) (s : State) (h : Inv s) :
    Inv (tBranch E key s) := by
  unfold tBranch
  split
  · exact Inv_submitText E _ (Inv_pauseSimulation s h)
  · exact h

theorem Inv_sBranch (key : String) (s : State) (h : Inv s) : Inv (sBranch key s) := by
  unfold sBranch
  split
  · exact ⟨h.1, Ready_of_cnv s _ h.2 rfl ⟨_, rfl⟩⟩
  · exact h

theorem Inv_processFrames (E : External) (n : ℕ) (s : State) (h : Inv s) :
    Inv (processFrames E n s) :=
  ⟨(processFrames_core E n s).symm ▸ h.1, Ready_processFrames E n s h.2⟩

theorem Inv_digitBranch (E : External) (key : String) (s : State) (h : Inv s) :
    Inv (digitBranch E key s) := by
  unfold digitBranch
  split
  · split
    · split
      · exact Inv_processFrames E _ s h
      · exact h
    · exact h
  · exact h

theorem Inv_keyPressed (E : External) (key : String) (s : State) (h : Inv s) :
    Inv (keyPressed E key s) := by
  rw [keyPressed_eq]
  split
  · exact h
  · exact Inv_digitBranch E key _ (Inv_sBranch key _ (Inv_tBranch E key _ (Inv_rBranch key _
      (Inv_cBranch key _ (Inv_bBranch key _ (Inv_spaceBranch key s h))))))

theorem Inv_step (E : External) (e : Event) (s : State) (h : Inv s) : Inv (step E e s) := by
  cases e with
  | draw => exact Inv_draw E s h
  | keyPressed key => exact Inv_keyPressed E key s h
  | toggleCursorColor => exact Inv_performActionAndBlur _ s (Inv_updateCursorColor s h)
  | toggleTextColors => exact Inv_performActionAndBlur _ s (Inv_updateTextColors s h)
  | toggleFont => exact Inv_performActionAndBlur _ s (Inv_updateFont s h)
  | submitText => exact Inv_submitText E s h
  | setResolution value =>
    simp only [step]
    split
    · have hs := Inv_start E (some value) s.randomStream
      exact ⟨hs.1, Ready_of_cnv _ _ hs.2 rfl ⟨_, rfl⟩⟩
    · exact h
  | setCursorRadius value => exact ⟨h.1, Ready_of_cnv s _ h.2 rfl ⟨_, rfl⟩⟩
  | setTextInput value =>
    obtain ⟨⟨h1, h2, h3, h4, h5, h6, h7, h8, h9, h10, h11, _⟩, hr⟩ := h
    refine ⟨⟨h1, h2, h3, h4, h5, h6, h7, h8, h9, h10, h11, ?_⟩, Ready_of_cnv s _ hr rfl ⟨_, rfl⟩⟩
    show '\n' ∉ value.data.filter (fun c => c ≠ '\n' ∧ c ≠ '\r')
    intro hm
    have := (List.mem_filter.mp hm).2
    simp at this
  | setTextSize value => exact ⟨h.1, Ready_of_cnv s _ h.2 rfl ⟨_, rfl⟩⟩
  | setTextWeight value => exact ⟨h.1, Ready_of_cnv s _ h.2 rfl ⟨_, rfl⟩⟩
  | setOutlineWeight value => exact ⟨h.1, Ready_of_cnv s _ h.2 rfl ⟨_, rfl⟩⟩
  | setUnsharpRadius value => exact ⟨h.1, Ready_of_cnv s _ h.2 rfl ⟨_, rfl⟩⟩
  | setRandomPointCount value => exact ⟨h.1, Ready_of_cnv s _ h.2 rfl ⟨_, rfl⟩⟩
  | setRandomPointSize value => exact ⟨h.1, Ready_of_cnv s _ h.2 rfl ⟨_, rfl⟩⟩
  | mouse pressed x y => exact ⟨h.1, Ready_of_cnv s _ h.2 rfl ⟨_, rfl⟩⟩
  | focus onText => exact ⟨h.1, Ready_of_cnv s _ h.2 rfl ⟨_, rfl⟩⟩

theorem Inv_run (E : External) (events : List Event) (s : State) (h : Inv s) :
    Inv (run E events s) := by
  induction events generalizing s with
  | nil => exact h
  | cons e es ih => exact ih _ (Inv_step E e s h)

theorem Inv_of_reachable (E : External) (s : State) (h : Reachable E s) : Inv s := by
  obtain ⟨item, stream, events, rfl⟩ := h
  exact Inv_run E events _ (Inv_start E item stream)

/-! ### Text -/

theorem keyPressed_t (E : External) (s : State) (hf : s.activeElementIsText = false) :
    keyPressed E "t" s = submitText E (pauseSimulation s) := by
  rw [keyPressed_eq]
  simp [hf, spaceBranch, bBranch, cBranch, rBranch, tBranch, sBranch, digitBranch,
    parseInt_letters.2.2.2.2.1]

theorem keyPressed_space (E : External) (s : State) (hf : s.activeElementIsText = false) :
    keyPressed E " " s = spaceBranch " " s := by
  rw [keyPressed_eq]
  simp [hf, bBranch, cBranch, rBranch, tBranch, sBranch, digitBranch, parseInt_letters.1]

theorem submitText_isLooping (E : External) (s : State) :
    (submitText E s).isLooping = s.isLooping := rfl

theorem formattedText_no_slash (content : String) : '/' ∉ (formattedText content).data := by
  simp only [formattedText, List.mem_map, not_exists, not_and]
  intro c _
  by_cases h : c = '/'
  · simp [h]
  · simp [h]

theorem pieces_formatted (cs : List Char) (h : '\n' ∉ cs) :
    pieces '\n' (cs.map (fun c => if c = '/' then '\n' else c)) = pieces '/' cs := by
  induction cs with
  | nil => rfl
  | cons c cs ih =>
    have hc : c ≠ '\n' := fun e => h (e ▸ List.mem_cons_self _ _)
    have ht : '\n' ∉ cs := fun e => h (List.mem_cons_of_mem _ e)
    by_cases hs : c = '/'
    · simp [pieces, hs, ih ht]
    · simp [pieces, hs, hc, ih ht]

/-- C3, the failing input: `controls.submitText` never writes `isLooping` or the
status; invoked on the running state a page load ends in (the `Submit Text`
button) it leaves the simulation running with the status reading `Running`.
The `t` key, with no text field focused, pauses first and then calls it. -/
theorem submitText_leaves_playback (E : External) (s : State) :
    (submitText E s).isLooping = s.isLooping ∧
    (submitText E s).controls.simulationStatus = s.controls.simulationStatus ∧
    (submitText E s).statusDisplayController = s.statusDisplayController ∧
    (∀ item stream,
      (submitText E (start E item stream)).isLooping = true ∧
      (submitText E (start E item stream)).controls.simulationStatus = "Running" ∧
      (submitText E (start E item stream)).statusDisplayController = some "Running") ∧
    (∀ item stream,
      keyPressed E "t" (start E item stream) =
        submitText E (pauseSimulation (start E item stream)) ∧
      (keyPressed E "t" (start E item stream)).isLooping = false) := by
  refine ⟨rfl, rfl, rfl, fun item stream => ?_, fun item stream => ?_⟩
  · obtain ⟨h1, h2, _⟩ := start_core E item stream
    have hi := (Inv_start E item stream).1.2.1
    refine ⟨h1, h2, ?_⟩
    show (start E item stream).statusDisplayController = some "Running"
    rw [← h2]; exact hi
  · have hf := (start_core E item stream).2.2.2.2.2
    rw [keyPressed_t E _ hf]
    exact ⟨rfl, (submitText_isLooping E _).trans (pauseSimulation_isLooping _)⟩

theorem run_setTextInput (E : External) (value : String) (s : State) :
    (run E [Event.setTextInput value] s).controls.textInput =
      ⟨value.data.filter (fun c => c ≠ '\n' ∧ c ≠ '\r')⟩ := rfl

theorem reachable_textInput (E : External) (content : String)
    (hn : '\n' ∉ content.data) (hr : '\r' ∉ content.data) :
    ∃ t, Reachable E t ∧ t.controls.textInput = content := by
  refine ⟨run E [Event.setTextInput content] (start E none (fun _ => (0, 0))),
    ⟨none, _, _, rfl⟩, ?_⟩
  rw [run_setTextInput]
  have hf : content.data.filter (fun c => c ≠ '\n' ∧ c ≠ '\r') = content.data := by
    rw [List.filter_eq_self]
    intro c hc
    have h1 : c ≠ '\n' := fun e => hn (e ▸ hc)
    have h2 : c ≠ '\r' := fun e => hr (e ▸ hc)
    simp [h1, h2]
  rw [hf]

/-- C8: the text `submitText` hands to the rasteriser is the content with every
`/` replaced by a line feed.  In every reachable state it holds no `/`, its lines
are exactly the `/`-separated segments of the content, in order, so two segments
give two lines, and both text calls, the outline pass with `outlineWeight` and
the stroke colour and then the fill pass with `textWeight` and the fill colour,
draw that same text centred at `(WIDTH / 2, HEIGHT / 2)`.  The contents of
reachable states are all the strings without line breaks, which is what the
one-line text field can hold; for each of them the lines are the segments. -/
theorem submitText_draws_formattedText (E : External) (s : State) (h : Reachable E s) :
    '/' ∉ (formattedText s.controls.textInput).data ∧
    (formattedText s.controls.textInput).data =
      s.controls.textInput.data.map (fun c => if c = '/' then '\n' else c) ∧
    pieces '\n' (formattedText s.controls.textInput).data = pieces '/' s.controls.textInput.data ∧
    ((pieces '/' s.controls.textInput.data).length = 2 →
      (pieces '\n' (formattedText s.controls.textInput).data).length = 2) ∧
    (submitText E s).textBuffer.calls.map
        (fun c => (c.str, c.x, c.y, c.style.alignH, c.style.alignV, c.style.strokeWeight,
          c.style.stroke, c.style.fill)) =
      [(formattedText s.controls.textInput, WIDTH s / 2, HEIGHT s / 2, Align.CENTER, Align.CENTER,
          s.controls.outlineWeight, some (gray s.TEXT_STROKE_COLOR),
          some (gray s.TEXT_STROKE_COLOR)),
        (formattedText s.controls.textInput, WIDTH s / 2, HEIGHT s / 2, Align.CENTER,
          Align.CENTER, s.controls.textWeight, some (gray s.TEXT_FILL_COLOR),
          some (gray s.TEXT_FILL_COLOR))] ∧
    (∀ content : String, '\n' ∉ content.data →
      '/' ∉ (formattedText content).data ∧
      pieces '\n' (formattedText content).data = pieces '/' content.data) ∧
    (∀ content : String, '\n' ∉ content.data → '\r' ∉ content.data →
      ∃ t, Reachable E t ∧ t.controls.textInput = content) := by
  have hn : '\n' ∉ s.controls.textInput.data := (Inv_of_reachable E s h).1.2.2.2.2.2.2.2.2.2.2.2
  have e : pieces '\n' (formattedText s.controls.textInput).data
      = pieces '/' s.controls.textInput.data := pieces_formatted _ hn
  exact ⟨formattedText_no_slash _, rfl, e, fun h2 => e ▸ h2, rfl,
    fun content hc => ⟨formattedText_no_slash content, pieces_formatted _ hc⟩,
    fun content hc hr => reachable_textInput E content hc hr⟩

/-- Worked instance of C8: after the page load the content `AB/CD` is typed into
the text field; the text drawn has the two lines `AB` and `CD`. -/
theorem submitText_draws_formattedText_witness :
    Reachable sampleExternal slashState ∧
      slashState.controls.textInput = "AB/CD" ∧
      (pieces '/' slashState.controls.textInput.data).length = 2 ∧
      pieces '\n' (formattedText slashState.controls.textInput).data =
        [['A', 'B'], ['C', 'D']] := by
  have hr : Reachable sampleExternal slashState :=
    ⟨none, fun n => (7 * n + 3, 9), [Event.setTextInput "AB/CD"], rfl⟩
  have ht : slashState.controls.textInput = "AB/CD" :=
    (run_setTextInput sampleExternal "AB/CD" _).trans (by decide)
  refine ⟨hr, ht, by rw [ht]; decide, ?_⟩
  rw [(submitText_draws_formattedText sampleExternal slashState hr).2.2.1, ht]
  decide

/-! ### Status and colours over a session -/

theorem reachable_start (E : External) (item : Option ℕ) (stream : ℕ → ℕ × ℕ) :
    Reachable E (start E item stream) :=
  ⟨item, stream, [], rfl⟩

theorem reachable_step (E : External) (e : Event) (s : State) (h : Reachable E s) :
    Reachable E (step E e s) := by
  obtain ⟨item, stream, events, rfl⟩ := h
  exact ⟨item, stream, events ++ [e], by simp [run, List.foldl_append]⟩

theorem run_focus (E : External) (b : Bool) (s : State) :
    (run E [Event.focus b] s).isLooping = s.isLooping ∧
      (run E [Event.focus b] s).activeElementIsText = b :=
  ⟨rfl, rfl⟩

theorem spaceBranch_isLooping (s : State) :
    (spaceBranch " " s).isLooping = !s.isLooping := by
  simp only [spaceBranch, if_true]
  exact updateStatusDisplay_isLooping _

theorem updateTextColors_twice (s : State) (h : Inv s) :
    updateTextColors (updateTextColors s) = s := by
  obtain ⟨⟨_, _, h3, h4, h5, h6, h7, h8, _⟩, _⟩ := h
  have h4' : s.TEXT_STROKE_COLOR = 255 - s.TEXT_FILL_COLOR := h4
  have h5' : s.controls.currentTextFillColor = colorName s.TEXT_FILL_COLOR := h5
  have h6' : s.controls.currentTextStrokeColor = colorName s.TEXT_STROKE_COLOR := h6
  have h7' : s.textFillColorDisplayController = some s.controls.currentTextFillColor := h7
  have h8' : s.textStrokeColorDisplayController = some s.controls.currentTextStrokeColor := h8
  have e1 : 255 - (255 - s.TEXT_FILL_COLOR) = s.TEXT_FILL_COLOR := by ring
  obtain ⟨a1, a2, a3, a4, a5, a6, a7, a8, a9, a10, ctl, a12, a13, a14, a15, a16, a17, a18, a19,
    a20, a21, a22, a23, a24, a25, a26⟩ := s
  obtain ⟨c1, c2, c3, c4, c5, c6, c7, c8, c9, c10, c11, c12, c13, c14, c15, c16, c17⟩ := ctl
  simp only at h4' h5' h6' h7' h8' e1
  subst h4' h5' h6' h7' h8'
  simp [updateTextColors, e1]

/-- C9, as stated, fails: in the reachable state where the page has loaded and
the text field has the focus, the space key returns at once and the state stays
running. -/
theorem space_key_in_text_field_counterexample :
    Reachable sampleExternal focusedStart ∧
    focusedStart.isLooping = true ∧
    keyPressed sampleExternal " " focusedStart = focusedStart ∧
    (keyPressed sampleExternal " " focusedStart).isLooping = true := by
  have hl : focusedStart.isLooping = true :=
    (run_focus sampleExternal true _).1.trans
      (start_core sampleExternal none (fun n => (7 * n + 3, 9))).1
  have hk := keyPressed_of_text_focus sampleExternal " " focusedStart
    (run_focus sampleExternal true _).2
  exact ⟨⟨none, fun n => (7 * n + 3, 9), [Event.focus true], rfl⟩, hl, hk, by rw [hk]; exact hl⟩

/-- C9, amended: in every reachable state the status text is `Running` exactly
when `isLooping` is true and `Paused` otherwise, and the status widget shows that
text; a page load ends running; and the space key flips `isLooping` from either
value whenever no text field is focused, while with a text field focused it
changes nothing. -/
theorem status_follows_playback (E : External) (s : State) (h : Reachable E s) :
    (s.controls.simulationStatus = "Running" ↔ s.isLooping = true) ∧
    (s.controls.simulationStatus = "Paused" ↔ s.isLooping = false) ∧
    s.statusDisplayController = some s.controls.simulationStatus ∧
    (∀ item stream, (start E item stream).isLooping = true ∧
      (start E item stream).controls.simulationStatus = "Running") ∧
    (s.activeElementIsText = false →
      (keyPressed E " " s).isLooping = !s.isLooping ∧ Reachable E (keyPressed E " " s)) ∧
    (s.activeElementIsText = true → keyPressed E " " s = s) := by
  obtain ⟨⟨h1, h2, _⟩, _⟩ := Inv_of_reachable E s h
  have h1' : s.controls.simulationStatus = if s.isLooping then "Running" else "Paused" := h1
  refine ⟨?_, ?_, h2, fun item stream => ⟨(start_core E item stream).1,
    (start_core E item stream).2.1⟩, fun hf => ⟨?_, reachable_step E (Event.keyPressed " ") s h⟩,
    fun hf => keyPressed_of_text_focus E " " s hf⟩
  · rw [h1']; cases s.isLooping <;> decide
  · rw [h1']; cases s.isLooping <;> decide
  · rw [keyPressed_space E s hf]; exact spaceBranch_isLooping s

/-- Worked instance of the amended C9: the space key on the state a page load
ends in pauses it. -/
theorem status_follows_playback_witness :
    Reachable sampleExternal (start sampleExternal none (fun _ => (0, 0))) ∧
      (start sampleExternal none (fun _ => (0, 0))).activeElementIsText = false ∧
      (keyPressed sampleExternal " " (start sampleExternal none (fun _ => (0, 0)))).isLooping =
        !(start sampleExternal none (fun _ => (0, 0))).isLooping :=
  ⟨reachable_start _ _ _, (start_core _ _ _).2.2.2.2.2,
    ((status_follows_playback sampleExternal _ (reachable_start _ _ _)).2.2.2.2.1
      (start_core _ _ _).2.2.2.2.2).1⟩

/-- C10: in every reachable state both text colours are `0` or `255`, the stroke
colour is `255` minus the fill colour, and the names shown are `White` for `255`
and `Black` for `0`; a page load starts with fill `255` and stroke `0`;
`toggleTextColors` swaps the two colours, twice in a row it restores every
variable (the focus, which it takes away, apart), and it leaves the cursor
colour alone, as `toggleCursorColor` leaves the text colours. -/
theorem text_colours_paired (E : External) (s : State) (h : Reachable E s) :
    (s.TEXT_FILL_COLOR = 255 ∨ s.TEXT_FILL_COLOR = 0) ∧
    (s.TEXT_STROKE_COLOR = 255 ∨ s.TEXT_STROKE_COLOR = 0) ∧
    s.TEXT_STROKE_COLOR = 255 - s.TEXT_FILL_COLOR ∧
    s.controls.currentTextFillColor = (if s.TEXT_FILL_COLOR = 255 then "White" else "Black") ∧
    s.controls.currentTextStrokeColor =
      (if s.TEXT_STROKE_COLOR = 255 then "White" else "Black") ∧
    s.textFillColorDisplayController = some s.controls.currentTextFillColor ∧
    s.textStrokeColorDisplayController = some s.controls.currentTextStrokeColor ∧
    (∀ item stream, (start E item stream).TEXT_FILL_COLOR = 255 ∧
      (start E item stream).TEXT_STROKE_COLOR = 0) ∧
    (toggleTextColors s).TEXT_FILL_COLOR = s.TEXT_STROKE_COLOR ∧
    (toggleTextColors s).TEXT_STROKE_COLOR = s.TEXT_FILL_COLOR ∧
    toggleTextColors (toggleTextColors s) = { s with activeElementIsText := false } ∧
    (s.activeElementIsText = false → toggleTextColors (toggleTextColors s) = s) ∧
    updateTextColors (updateTextColors s) = s ∧
    (toggleTextColors s).CURSOR_COLOR = s.CURSOR_COLOR ∧
    (toggleCursorColor s).TEXT_FILL_COLOR = s.TEXT_FILL_COLOR ∧
    (toggleCursorColor s).TEXT_STROKE_COLOR = s.TEXT_STROKE_COLOR ∧
    Reachable E (toggleTextColors s) ∧ Reachable E (toggleCursorColor s) := by
  have hi := Inv_of_reachable E s h
  obtain ⟨⟨_, _, h3, h4, h5, h6, h7, h8, _⟩, _⟩ := Inv_of_reachable E s h
  have h3' : s.TEXT_FILL_COLOR = 255 ∨ s.TEXT_FILL_COLOR = 0 := h3
  have h4' : s.TEXT_STROKE_COLOR = 255 - s.TEXT_FILL_COLOR := h4
  have hsw : (toggleTextColors s).TEXT_FILL_COLOR = 255 - s.TEXT_FILL_COLOR := rfl
  have hsw2 : (toggleTextColors s).TEXT_STROKE_COLOR = 255 - (255 - s.TEXT_FILL_COLOR) := rfl
  have htw : toggleTextColors (toggleTextColors s)
      = { updateTextColors (updateTextColors s) with activeElementIsText := false } := rfl
  refine ⟨h3', by omega, h4', h5, h6, h7, h8, fun item stream =>
    ⟨(start_core E item stream).2.2.1, (start_core E item stream).2.2.2.1⟩, by omega, by omega,
    ?_, fun hf => ?_, updateTextColors_twice s hi, rfl, rfl, rfl,
    reachable_step E Event.toggleTextColors s h, reachable_step E Event.toggleCursorColor s h⟩
  · rw [htw, updateTextColors_twice s hi]
  · rw [htw, updateTextColors_twice s hi]
    cases s
    simp_all

/-- Worked instance of C10: the state a page load ends in. -/
theorem text_colours_paired_witness :
    Reachable sampleExternal (start sampleExternal none (fun _ => (0, 0))) ∧
      (start sampleExternal none (fun _ => (0, 0))).TEXT_STROKE_COLOR =
        255 - (start sampleExternal none (fun _ => (0, 0))).TEXT_FILL_COLOR :=
  ⟨reachable_start _ _ _,
    (text_colours_paired sampleExternal _ (reachable_start _ _ _)).2.2.1⟩

/-! ### Border on the sampled canvas -/

theorem paintSamples_paintSamples (cover : ℤ → ℤ → ℕ → Bool) (c : Color)
    (S : ℤ → ℤ → ℕ → Color) :
    paintSamples cover c (paintSamples cover c S) = paintSamples cover c S := by
  funext i j k
  simp only [paintSamples]
  split <;> rfl

theorem SampledCanvas.Border_eq (res : ℕ) (c : SampledCanvas) :
    c.Border res =
      { c with samples := paintSamples (c.borderCover res) (gray 255) c.samples } := by
  simp only [SampledCanvas.Border, SampledCanvas.push, SampledCanvas.pop, SampledCanvas.noFill,
    SampledCanvas.stroke, SampledCanvas.setStrokeWeight, SampledCanvas.rect]
  congr 1

theorem SampledCanvas.borderCover_Border (res : ℕ) (c : SampledCanvas) :
    (c.Border res).borderCover res = c.borderCover res := by
  rw [SampledCanvas.Border_eq]
  rfl

theorem SampledCanvas.Border_Border (res : ℕ) (c : SampledCanvas) :
    (c.Border res).Border res = c.Border res := by
  rw [SampledCanvas.Border_eq res (c.Border res), SampledCanvas.borderCover_Border,
    SampledCanvas.Border_eq res c]
  simp only [paintSamples_paintSamples]

theorem meanRounded_congr (n : ℕ) (f g : ℕ → ℤ) (h : ∀ k, k < n → f k = g k) :
    meanRounded n f = meanRounded n g := by
  unfold meanRounded
  have : (List.range n).map f = (List.range n).map g :=
    List.map_congr_left (fun k hk => h k (List.mem_range.mp hk))
  rw [this]

theorem sum_map_range_const (n : ℕ) (f : ℕ → ℤ) (v : ℤ) (h : ∀ k, k < n → f k = v) :
    ((List.range n).map f).sum = n * v := by
  induction n with
  | zero => simp
  | succ n ih =>
    rw [List.range_succ, List.map_append, List.sum_append,
      ih (fun k hk => h k (Nat.lt_succ_of_lt hk))]
    simp only [List.map_cons, List.map_nil, List.sum_cons, List.sum_nil, add_zero,
      h n (Nat.lt_succ_self n)]
    push_cast
    ring

theorem meanRounded_const (n : ℕ) (hn : 0 < n) (f : ℕ → ℤ) (v : ℤ)
    (h : ∀ k, k < n → f k = v) : meanRounded n f = v := by
  unfold meanRounded
  rw [sum_map_range_const n f v h]
  have hn' : (0 : ℤ) < (n : ℤ) := by exact_mod_cast hn
  have e : 2 * ((n : ℤ) * v) + (n : ℤ) = (n : ℤ) + 2 * (n : ℤ) * v := by ring
  rw [e, Int.add_mul_ediv_left _ _ (by omega : (2 * (n : ℤ)) ≠ 0),
    Int.ediv_eq_zero_of_lt hn'.le (by omega)]
  simp

theorem SampledCanvas.get_Border_covered (res : ℕ) (c : SampledCanvas) (hn : c.offsets ≠ [])
    (i j : ℤ) (h : ∀ k, k < c.offsets.length → c.borderCover res i j k = true) :
    (c.Border res).get i j = ⟨255, 255, 255, 255⟩ := by
  have hpos : 0 < c.offsets.length := List.length_pos.mpr hn
  have hs : ∀ k, k < c.offsets.length → (c.Border res).samples i j k = gray 255 := by
    intro k hk
    rw [SampledCanvas.Border_eq]
    simp [paintSamples, h k hk]
  have hl : (c.Border res).offsets.length = c.offsets.length := by
    rw [SampledCanvas.Border_eq]
  simp only [SampledCanvas.get, hl]
  rw [meanRounded_const _ hpos _ 255 (fun k hk => by rw [hs k hk]; rfl),
    meanRounded_const _ hpos _ 255 (fun k hk => by rw [hs k hk]; rfl),
    meanRounded_const _ hpos _ 255 (fun k hk => by rw [hs k hk]; rfl),
    meanRounded_const _ hpos _ 255 (fun k hk => by rw [hs k hk]; rfl)]

theorem SampledCanvas.get_Border_uncovered (res : ℕ) (c : SampledCanvas) (i j : ℤ)
    (h : ∀ k, k < c.offsets.length → c.borderCover res i j k = false) :
    (c.Border res).get i j = c.get i j := by
  have hs : ∀ k, k < c.offsets.length → (c.Border res).samples i j k = c.samples i j k := by
    intro k hk
    rw [SampledCanvas.Border_eq]
    simp [paintSamples, h k hk]
  have hl : (c.Border res).offsets.length = c.offsets.length := by
    rw [SampledCanvas.Border_eq]
  simp only [SampledCanvas.get, hl]
  rw [meanRounded_congr _ _ _ (fun k hk => congrArg Color.r (hs k hk)),
    meanRounded_congr _ _ _ (fun k hk => congrArg Color.g (hs k hk)),
    meanRounded_congr _ _ _ (fun k hk => congrArg Color.b (hs k hk)),
    meanRounded_congr _ _ _ (fun k hk => congrArg Color.a (hs k hk))]

theorem SampledCanvas.borderCover_eq_edgeDistanceAt (res : ℕ) (c : SampledCanvas)
    (hw : c.w = res) (hh : c.h = res) (hx : c.style.tx = 0) (hy : c.style.ty = 0)
    (i j : ℤ) (k : ℕ)
    (h1 : 0 < (i : ℚ) + (c.offsets.getD k (1 / 2, 1 / 2)).1)
    (h2 : (i : ℚ) + (c.offsets.getD k (1 / 2, 1 / 2)).1 < res)
    (h3 : 0 < (j : ℚ) + (c.offsets.getD k (1 / 2, 1 / 2)).2)
    (h4 : (j : ℚ) + (c.offsets.getD k (1 / 2, 1 / 2)).2 < res) :
    c.borderCover res i j k =
      decide (edgeDistanceAt res res ((i : ℚ) + (c.offsets.getD k (1 / 2, 1 / 2)).1)
        ((j : ℚ) + (c.offsets.getD k (1 / 2, 1 / 2)).2) ≤ (res : ℚ) / 24 / 2) := by
  have hpos : 0 < edgeDistanceAt res res ((i : ℚ) + (c.offsets.getD k (1 / 2, 1 / 2)).1)
      ((j : ℚ) + (c.offsets.getD k (1 / 2, 1 / 2)).2) := by
    unfold edgeDistanceAt
    refine lt_min (lt_min ?_ ?_) (lt_min ?_ ?_) <;> linarith
  simp only [SampledCanvas.borderCover, SampledCanvas.sampleX, SampledCanvas.sampleY, hw, hh,
    hx, hy, add_zero, sub_zero, abs_sub_half, max_neg_neg, abs_neg, min_self]
  change decide (|edgeDistanceAt _ _ _ _| ≤ _) = _
  rw [abs_of_pos hpos]

theorem oneSample_Border (s : State) :
    (oneSample s).Border s.savedResolution = oneSample (Border s) := by
  rw [SampledCanvas.Border_eq]
  have h : (oneSample s).borderCover s.savedResolution = fun i j _ => borderCover s i j := by
    funext i j k
    have hk : ([((1 : ℚ) / 2, (1 : ℚ) / 2)] : List (ℚ × ℚ)).getD k (1 / 2, 1 / 2) = (1 / 2, 1 / 2) := by
      cases k <;> simp
    simp only [SampledCanvas.borderCover, borderCover, SampledCanvas.sampleX,
      SampledCanvas.sampleY, oneSample, hk, Canvas.centreX, Canvas.centreY, WIDTH, HEIGHT, MIN_SIDE]
  rw [h]
  simp only [oneSample, Border_cnv_general]
  rfl

theorem oneSample_get (s : State) : (oneSample s).get = s.cnv.pixels := by
  funext i j
  simp only [SampledCanvas.get, oneSample, List.length_singleton]
  rw [meanRounded_const 1 Nat.one_pos _ (s.cnv.pixels i j).r (fun _ _ => rfl),
    meanRounded_const 1 Nat.one_pos _ (s.cnv.pixels i j).g (fun _ _ => rfl),
    meanRounded_const 1 Nat.one_pos _ (s.cnv.pixels i j).b (fun _ _ => rfl),
    meanRounded_const 1 Nat.one_pos _ (s.cnv.pixels i j).a (fun _ _ => rfl)]

theorem blackBuffer_rim_300 :
    (blackBuffer 300).borderCover 300 6 150 0 = false ∧
    (blackBuffer 300).borderCover 300 6 150 1 = false ∧
    (blackBuffer 300).borderCover 300 6 150 2 = true ∧
    (blackBuffer 300).borderCover 300 6 150 3 = false := by
  refine ⟨?_, ?_, ?_, ?_⟩ <;>
    simp only [SampledCanvas.borderCover, SampledCanvas.sampleX, SampledCanvas.sampleY,
      blackBuffer, fourSamples, Style.rest, List.getD_cons_zero, List.getD_cons_succ] <;>
    norm_num [abs_of_nonneg, abs_of_nonpos]

theorem blackBuffer_rim_600 :
    (blackBuffer 600).borderCover 600 12 300 0 = true ∧
    (blackBuffer 600).borderCover 600 12 300 1 = false ∧
    (blackBuffer 600).borderCover 600 12 300 2 = true ∧
    (blackBuffer 600).borderCover 600 12 300 3 = false := by
  refine ⟨?_, ?_, ?_, ?_⟩ <;>
    simp only [SampledCanvas.borderCover, SampledCanvas.sampleX, SampledCanvas.sampleY,
      blackBuffer, fourSamples, Style.rest, List.getD_cons_zero, List.getD_cons_succ] <;>
    norm_num [abs_of_nonneg, abs_of_nonpos]

/-- C5, as stated, fails on an anti-aliased canvas: on the black four-sample
canvas at resolution 300 the outline covers one sample of pixel `(6, 150)`, which
then reads 64, and at resolution 600 it covers two samples of pixel `(12, 300)`,
which then reads 128; either pixel is neither set to white nor left as it was. -/
theorem Border_rim_pixel_counterexample :
    (blackBuffer 300).get 6 150 = ⟨0, 0, 0, 255⟩ ∧
    ((blackBuffer 300).Border 300).get 6 150 = ⟨64, 64, 64, 255⟩ ∧
    (blackBuffer 600).get 12 300 = ⟨0, 0, 0, 255⟩ ∧
    ((blackBuffer 600).Border 600).get 12 300 = ⟨128, 128, 128, 255⟩ := by
  obtain ⟨a0, a1, a2, a3⟩ := blackBuffer_rim_300
  obtain ⟨b0, b1, b2, b3⟩ := blackBuffer_rim_600
  refine ⟨by decide, ?_, by decide, ?_⟩
  · rw [SampledCanvas.Border_eq]
    simp only [SampledCanvas.get, meanRounded, paintSamples, blackBuffer, fourSamples,
      List.length_cons, List.length_nil, List.range_succ, List.range_zero, List.nil_append,
      List.cons_append, List.map_cons, List.map_nil, List.sum_cons, List.sum_nil] at a0 a1 a2 a3 ⊢
    simp only [a0, a1, a2, a3]
    decide
  · rw [SampledCanvas.Border_eq]
    simp only [SampledCanvas.get, meanRounded, paintSamples, blackBuffer, fourSamples,
      List.length_cons, List.length_nil, List.range_succ, List.range_zero, List.nil_append,
      List.cons_append, List.map_cons, List.map_nil, List.sum_cons, List.sum_nil] at b0 b1 b2 b3 ⊢
    simp only [b0, b1, b2, b3]
    decide

theorem blackBuffer_inside_300 (k : ℕ) (hk : k < (blackBuffer 300).offsets.length) :
    (blackBuffer 300).borderCover 300 2 150 k = true := by
  have hk4 : k < 4 := hk
  interval_cases k <;>
    simp only [SampledCanvas.borderCover, SampledCanvas.sampleX, SampledCanvas.sampleY,
      blackBuffer, fourSamples, Style.rest, List.getD_cons_zero, List.getD_cons_succ] <;>
    norm_num [abs_of_nonneg, abs_of_nonpos]

/-- C5, amended: `Border` applied twice is `Border` applied once, on the sampled
canvas and in what `p.get()` reads from it.  It sets every sample covered by the
white outline of stroke weight `MIN_SIDE / 24` around the canvas rectangle to
white (255 in every channel) and leaves every other sample as it was; on a
canvas in its rest drawing state the covered samples of the canvas are those
within half the stroke weight of the nearest canvas edge.  So a pixel reads
white when all its samples are covered, is unchanged when none is, and with one
sample per pixel every pixel is the one or the other; there `Border` is the
function of the same name on the one-colour-per-pixel canvas. -/
theorem Border_sampled_idempotent (res : ℕ) (c : SampledCanvas) :
    (c.Border res).Border res = c.Border res ∧
    ((c.Border res).Border res).get = (c.Border res).get ∧
    (∀ i j k, (c.Border res).samples i j k =
      if c.borderCover res i j k then (⟨255, 255, 255, 255⟩ : Color) else c.samples i j k) ∧
    (c.offsets ≠ [] → ∀ i j, (∀ k, k < c.offsets.length → c.borderCover res i j k = true) →
      (c.Border res).get i j = ⟨255, 255, 255, 255⟩) ∧
    (∀ i j, (∀ k, k < c.offsets.length → c.borderCover res i j k = false) →
      (c.Border res).get i j = c.get i j) ∧
    (c.offsets.length = 1 → ∀ i j,
      (c.Border res).get i j =
        if c.borderCover res i j 0 then (⟨255, 255, 255, 255⟩ : Color) else c.get i j) ∧
    (c.w = res → c.h = res → c.style.tx = 0 → c.style.ty = 0 → ∀ (i j : ℤ) (k : ℕ),
      0 < (i : ℚ) + (c.offsets.getD k (1 / 2, 1 / 2)).1 →
      (i : ℚ) + (c.offsets.getD k (1 / 2, 1 / 2)).1 < res →
      0 < (j : ℚ) + (c.offsets.getD k (1 / 2, 1 / 2)).2 →
      (j : ℚ) + (c.offsets.getD k (1 / 2, 1 / 2)).2 < res →
      c.borderCover res i j k =
        decide (edgeDistanceAt res res ((i : ℚ) + (c.offsets.getD k (1 / 2, 1 / 2)).1)
          ((j : ℚ) + (c.offsets.getD k (1 / 2, 1 / 2)).2) ≤ (res : ℚ) / 24 / 2)) ∧
    (∀ s : State, (oneSample s).Border s.savedResolution = oneSample (Border s) ∧
      (oneSample s).get = s.cnv.pixels) := by
  refine ⟨SampledCanvas.Border_Border res c, by rw [SampledCanvas.Border_Border], ?_,
    fun hn i j h => SampledCanvas.get_Border_covered res c hn i j h,
    fun i j h => SampledCanvas.get_Border_uncovered res c i j h, fun h1 i j => ?_,
    fun hw hh hx hy i j k h1 h2 h3 h4 =>
      SampledCanvas.borderCover_eq_edgeDistanceAt res c hw hh hx hy i j k h1 h2 h3 h4,
    fun s => ⟨oneSample_Border s, oneSample_get s⟩⟩
  · intro i j k
    rw [SampledCanvas.Border_eq]
    rfl
  · have hn : c.offsets ≠ [] := by
      intro e; rw [e] at h1; simp at h1
    cases hc : c.borderCover res i j 0
    · rw [SampledCanvas.get_Border_uncovered res c i j (fun k hk => by
        have : k = 0 := by omega
        rw [this]; exact hc)]
      simp
    · rw [SampledCanvas.get_Border_covered res c hn i j (fun k hk => by
        have : k = 0 := by omega
        rw [this]; exact hc)]
      simp

/-- Worked instance of the amended C5: on the black four-sample canvas at
resolution 300 every sample of pixel `(2, 150)` is covered, and the pixel turns
from black to white. -/
theorem Border_sampled_idempotent_witness :
    (blackBuffer 300).offsets ≠ [] ∧
      (∀ k, k < (blackBuffer 300).offsets.length →
        (blackBuffer 300).borderCover 300 2 150 k = true) ∧
      (blackBuffer 300).get 2 150 = ⟨0, 0, 0, 255⟩ ∧
      ((blackBuffer 300).Border 300).get 2 150 = ⟨255, 255, 255, 255⟩ :=
  ⟨by decide, blackBuffer_inside_300, by decide,
    (Border_sampled_idempotent 300 (blackBuffer 300)).2.2.2.1 (by decide) 2 150
      blackBuffer_inside_300⟩

end Sketch
